import Mathlib

/-!
Shallow embedding of the ascend-agent multi-agent system (Python sources under
src/agents and src/config), together with proofs about its envelope discipline,
retry loop, task dispatch, validation, construction-time configuration checks,
and workflow-history bookkeeping.

Modelling conventions:
* Python runtime values flowing through task descriptors, contexts and metadata
  are embedded as `PyVal` (mapping keys are modelled as strings, the shape all
  callers in the repository use; `datetime` objects are abstracted to a day
  index).  String renderings of container values (`str`/`repr`) are embedded by
  a fixed total function; no claim inspects the text of those renderings.
* The backend text-generation call (`self.llm.ainvoke` wrapped by
  `_execute_with_timeout`) is opaque per the spec: it is a function from the
  global invocation counter to either a returned text or a raised exception.
* `async`/`await` sequencing is dropped (single-threaded, deterministic);
  `await asyncio.sleep(self.retry_delay)` is recorded in a sleep log;
  `time.time()` wall-clock stamps (`execution_time`) and log statements are
  outside the embedding, and `datetime.now().isoformat()` is injected as an
  explicit `now` string.
* Python exceptions raised and caught inside the translated code are modelled
  with `Except String`; the exact `str(e)` text of interpreter-raised type
  errors is descriptive rather than byte-identical (no claim reads those
  strings), while exceptions raised by the opaque backend carry their own text.
-/

/-- Embedded Python runtime values (mapping keys are strings; `datetime`
objects are abstracted to a day index). -/
inductive PyVal where
  | none
  | bool (b : Bool)
  | int (n : Int)
  | float (q : Rat)
  | str (s : String)
  | date (day : Int)
  | list (xs : List PyVal)
  | dict (xs : List (String × PyVal))

mutual

/-- Structural equality on embedded values, modelling Python `==` on the value
shapes that occur in the repository. -/
def PyVal.beq : PyVal → PyVal → Bool
  | .none, .none => true
  | .bool a, .bool b => a == b
  | .int a, .int b => a == b
  | .float a, .float b => a == b
  | .str a, .str b => a == b
  | .date a, .date b => a == b
  | .list a, .list b => PyVal.beqList a b
  | .dict a, .dict b => PyVal.beqDict a b
  | _, _ => false

def PyVal.beqList : List PyVal → List PyVal → Bool
  | [], [] => true
  | x :: xs, y :: ys => PyVal.beq x y && PyVal.beqList xs ys
  | _, _ => false

def PyVal.beqDict : List (String × PyVal) → List (String × PyVal) → Bool
  | [], [] => true
  | (k, v) :: xs, (l, w) :: ys => k == l && PyVal.beq v w && PyVal.beqDict xs ys
  | _, _ => false

end

instance : BEq PyVal := ⟨PyVal.beq⟩

/-- Python truthiness (`bool(v)`). -/
def PyVal.truthy : PyVal → Bool
  | .none => false
  | .bool b => b
  | .int n => n != 0
  | .float q => q != 0
  | .str s => s != ""
  | .date _ => true
  | .list xs => !xs.isEmpty
  | .dict xs => !xs.isEmpty

/-- A Python `dict` with string keys, as used for task descriptors, contexts
and envelope metadata. -/
abbrev PyDict := List (String × PyVal)

/-- `d.get(k)` on a value statically known to be a dict: first binding of `k`,
`None` when absent. -/
def PyDict.get (d : PyDict) (k : String) : PyVal :=
  match d.lookup k with
  | Option.some v => v
  | Option.none => PyVal.none

/-- `d.get(k, default)` on a value statically known to be a dict. -/
def PyDict.getD (d : PyDict) (k : String) (default : PyVal) : PyVal :=
  match d.lookup k with
  | Option.some v => v
  | Option.none => default

/-- `d[k] = v` on a dict: replace the first binding in place, else append
(Python dicts keep insertion order). -/
def PyDict.set (d : PyDict) (k : String) (v : PyVal) : PyDict :=
  match d with
  | [] => [(k, v)]
  | (l, w) :: rest => if l = k then (k, v) :: rest else (l, w) :: PyDict.set rest k v

/-- `k in d` key membership on a dict. -/
def PyDict.hasKey (d : PyDict) (k : String) : Bool :=
  (d.lookup k).isSome

mutual

/-- Python `repr(v)`, used when containers are interpolated into f-strings.
The quoting of nested strings is elided (no claim reads these renderings). -/
def PyVal.repr : PyVal → String
  | .none => "None"
  | .bool b => if b then "True" else "False"
  | .int n => toString n
  | .float q => toString q
  | .str s => s
  | .date d => "datetime(" ++ toString d ++ ")"
  | .list xs => "[" ++ PyVal.reprList xs ++ "]"
  | .dict xs => "\x7b" ++ PyVal.reprDict xs ++ "\x7d"

def PyVal.reprList : List PyVal → String
  | [] => ""
  | [x] => PyVal.repr x
  | x :: xs => PyVal.repr x ++ ", " ++ PyVal.reprList xs

def PyVal.reprDict : List (String × PyVal) → String
  | [] => ""
  | [(k, v)] => k ++ ": " ++ PyVal.repr v
  | (k, v) :: xs => k ++ ": " ++ PyVal.repr v ++ ", " ++ PyVal.reprDict xs

end

/-- Python `str(v)` as used in f-string interpolation. -/
def PyVal.toText : PyVal → String
  | .str s => s
  | v => PyVal.repr v

/-- `v.get(k, default)` on an arbitrary value: raises `AttributeError` unless
`v` is a mapping (modelled via `Except`). -/
def pyGetD (v : PyVal) (k : String) (default : PyVal) : Except String PyVal :=
  match v with
  | .dict d => Except.ok (PyDict.getD d k default)
  | _ => Except.error "AttributeError: object has no attribute get"

/-- `v.get(k)` on an arbitrary value. -/
def pyGet (v : PyVal) (k : String) : Except String PyVal :=
  pyGetD v k PyVal.none

/-- `v[k]` subscript on an arbitrary value with a string key: `KeyError` when
the key is absent, `TypeError` when `v` is not a mapping. -/
def pySubscript (v : PyVal) (k : String) : Except String PyVal :=
  match v with
  | .dict d =>
      match d.lookup k with
      | Option.some w => Except.ok w
      | Option.none => Except.error ("KeyError: " ++ k)
  | _ => Except.error "TypeError: object is not subscriptable"

/-- `for x in v`: lists iterate their elements, strings their characters,
dicts their keys; other values raise `TypeError`. -/
def pyIter (v : PyVal) : Except String (List PyVal) :=
  match v with
  | .list xs => Except.ok xs
  | .str s => Except.ok (s.toList.map fun c => PyVal.str (String.mk [c]))
  | .dict d => Except.ok (d.map fun kv => PyVal.str kv.fst)
  | _ => Except.error "TypeError: object is not iterable"

/-!
## The Result Envelope and the retry loop (src/agents/base_agent.py)
-/

/-- `AgentResponse` (src/agents/base_agent.py lines 18-25).  The
`execution_time` field is a wall-clock duration and stays outside the
embedding; no claim quantifies over it. -/
structure AgentResponse where
  content : String
  metadata : PyDict
  success : Bool
  error : Option String := Option.none

/-- An exception raised by the opaque backend call
(`BaseAgent._execute_with_timeout`): either `asyncio.TimeoutError` or any
other exception carrying its `str(e)` text. -/
inductive PyExc where
  | timeoutError
  | exc (msg : String)

/-- Python `str(e)`: `str(TimeoutError())` is the empty string. -/
def PyExc.toStr : PyExc → String
  | .timeoutError => ""
  | .exc m => m

/-- The behaviour of the opaque backend, indexed by the global invocation
counter: attempt `i` either returns a text or raises. -/
abbrev Backend := Nat → Except PyExc String

/-- The retry-relevant configuration of a `BaseAgent`
(src/agents/base_agent.py lines 53-54): `max_retries` is an `int` read from
kwargs or settings, so it may be negative; `retry_delay` is the number of
seconds passed to each `asyncio.sleep`. -/
structure AgentCfg where
  name : String
  max_retries : Int
  retry_delay : Int

/-- The `for attempt in range(self.max_retries + 1)` loop of
`BaseAgent.process_message` (src/agents/base_agent.py lines 101-144), with the
outer `except` handler (lines 146-161) applied where the final attempt
re-raises.  `fuel` is the number of loop iterations remaining, `attempt` the
current 0-based index, `calls` the global backend-invocation counter and
`sleeps` the log of executed `asyncio.sleep(self.retry_delay)` durations.
Falling off the end of the loop returns Python `None`. -/
def processAttempts (cfg : AgentCfg) (context : PyVal) (backend : Backend) :
    Nat → Nat → Nat → List Int → Option AgentResponse × Nat × List Int
  | 0, _attempt, calls, sleeps => (Option.none, calls, sleeps)
  | fuel + 1, attempt, calls, sleeps =>
    match backend calls with
    | Except.ok text =>
        (Option.some
          { content := text
            metadata := [("agent", PyVal.str cfg.name),
                         ("attempt", PyVal.int (attempt + 1)),
                         ("context", context)]
            success := true },
         calls + 1, sleeps)
    | Except.error e =>
        if (attempt : Int) = cfg.max_retries then
          (Option.some
            { content := ""
              metadata := [("agent", PyVal.str cfg.name), ("context", context)]
              success := false
              error := Option.some e.toStr },
           calls + 1, sleeps)
        else
          processAttempts cfg context backend fuel (attempt + 1) (calls + 1)
            (sleeps ++ [cfg.retry_delay])

/-- `BaseAgent.process_message` (src/agents/base_agent.py lines 77-161):
returns the envelope (or Python `None` when the loop body never runs),
the number of backend invocations and the sleep log. -/
def process_message (cfg : AgentCfg) (context : PyVal) (backend : Backend) :
    Option AgentResponse × Nat × List Int :=
  processAttempts cfg context backend (cfg.max_retries + 1).toNat 0 0 []

example :
    process_message ⟨"A", 2, 5⟩ PyVal.none
      (fun i => if i < 2 then Except.error PyExc.timeoutError else Except.ok "ok") =
    (Option.some
      { content := "ok"
        metadata := [("agent", PyVal.str "A"), ("attempt", PyVal.int 3),
                     ("context", PyVal.none)]
        success := true },
     3, [5, 5]) := rfl

example :
    process_message ⟨"A", 1, 7⟩ PyVal.none
      (fun _ => Except.error (PyExc.exc "boom")) =
    (Option.some
      { content := ""
        metadata := [("agent", PyVal.str "A"), ("context", PyVal.none)]
        success := false
        error := Option.some "boom" },
     2, [7]) := rfl

example :
    process_message ⟨"A", -1, 5⟩ PyVal.none (fun _ => Except.ok "ok") =
    (Option.none, 0, []) := rfl

/-!
## Generic facts about the retry loop
-/

theorem processAttempts_success (cfg : AgentCfg) (ctx : PyVal) (b : Backend) (t : String) :
    ∀ (k fuel attempt calls : Nat) (sleeps : List Int),
      k < fuel →
      (∀ i, i < k → ∃ e, b (calls + i) = Except.error e) →
      (∀ i, i < k → ((attempt + i : Nat) : Int) ≠ cfg.max_retries) →
      b (calls + k) = Except.ok t →
      processAttempts cfg ctx b fuel attempt calls sleeps =
        (Option.some
          { content := t
            metadata := [("agent", PyVal.str cfg.name),
                         ("attempt", PyVal.int ((attempt : Int) + k + 1)),
                         ("context", ctx)]
            success := true },
         calls + k + 1, sleeps ++ List.replicate k cfg.retry_delay) := by
  intro k
  induction k with
  | zero =>
      intro fuel attempt calls sleeps hfuel _hfail _hne hok
      match fuel, hfuel with
      | fuel + 1, _ =>
        simp only [Nat.add_zero] at hok
        rw [processAttempts]
        simp [hok]
  | succ k ih =>
      intro fuel attempt calls sleeps hfuel hfail hne hok
      match fuel, hfuel with
      | fuel + 1, hfuel =>
        obtain ⟨e, he⟩ := hfail 0 (Nat.succ_pos k)
        simp only [Nat.add_zero] at he
        have hne0 : ((attempt : Nat) : Int) ≠ cfg.max_retries := by
          have := hne 0 (Nat.succ_pos k)
          simpa using this
        have step := ih fuel (attempt + 1) (calls + 1) (sleeps ++ [cfg.retry_delay])
          (Nat.lt_of_succ_lt_succ hfuel)
          (fun i hi => by
            obtain ⟨e2, he2⟩ := hfail (i + 1) (Nat.succ_lt_succ hi)
            exact ⟨e2, by rw [← he2]; congr 1; omega⟩)
          (fun i hi => by
            have := hne (i + 1) (Nat.succ_lt_succ hi)
            have harr : attempt + 1 + i = attempt + (i + 1) := by omega
            rw [harr]; exact this)
          (by rw [← hok]; congr 1; omega)
        rw [processAttempts]
        simp only [he, if_neg hne0]
        rw [step]
        have e1 : ((attempt + 1 : Nat) : Int) + k + 1 = (attempt : Int) + (k + 1 : Nat) + 1 := by
          push_cast; ring
        have e2 : calls + 1 + k + 1 = calls + (k + 1) + 1 := by omega
        rw [e1, e2, List.append_assoc]
        simp [List.replicate_succ]

theorem processAttempts_exhaust (cfg : AgentCfg) (ctx : PyVal) (b : Backend) (es : Nat → PyExc) :
    ∀ (m attempt calls : Nat) (sleeps : List Int),
      (∀ i, i ≤ m → b (calls + i) = Except.error (es (calls + i))) →
      (∀ i, i < m → ((attempt + i : Nat) : Int) ≠ cfg.max_retries) →
      ((attempt + m : Nat) : Int) = cfg.max_retries →
      processAttempts cfg ctx b (m + 1) attempt calls sleeps =
        (Option.some
          { content := ""
            metadata := [("agent", PyVal.str cfg.name), ("context", ctx)]
            success := false
            error := Option.some (es (calls + m)).toStr },
         calls + m + 1, sleeps ++ List.replicate m cfg.retry_delay) := by
  intro m
  induction m with
  | zero =>
      intro attempt calls sleeps hfail _hne hlast
      have he := hfail 0 (Nat.le_refl 0)
      simp only [Nat.add_zero] at he hlast
      rw [processAttempts]
      simp [he, hlast]
  | succ m ih =>
      intro attempt calls sleeps hfail hne hlast
      have he := hfail 0 (Nat.zero_le _)
      simp only [Nat.add_zero] at he
      have hne0 : ((attempt : Nat) : Int) ≠ cfg.max_retries := by
        have := hne 0 (Nat.succ_pos m)
        simpa using this
      have step := ih (attempt + 1) (calls + 1) (sleeps ++ [cfg.retry_delay])
        (fun i hi => by
          have := hfail (i + 1) (Nat.succ_le_succ hi)
          have harr : calls + 1 + i = calls + (i + 1) := by omega
          rw [harr]; exact this)
        (fun i hi => by
          have := hne (i + 1) (Nat.succ_lt_succ hi)
          have harr : attempt + 1 + i = attempt + (i + 1) := by omega
          rw [harr]; exact this)
        (by
          have harr : attempt + 1 + m = attempt + (m + 1) := by omega
          rw [harr]; exact hlast)
      rw [processAttempts]
      simp only [he, if_neg hne0]
      rw [step]
      have e1 : calls + 1 + m = calls + (m + 1) := by omega
      rw [e1, List.append_assoc]
      simp [List.replicate_succ]

theorem processAttempts_isSome (cfg : AgentCfg) (ctx : PyVal) (b : Backend) :
    ∀ (fuel attempt calls : Nat) (sleeps : List Int),
      1 ≤ fuel →
      ((attempt : Int) + fuel = cfg.max_retries + 1) →
      ((processAttempts cfg ctx b fuel attempt calls sleeps).1).isSome := by
  intro fuel
  induction fuel with
  | zero => intro _ _ _ h; omega
  | succ m ih =>
      intro attempt calls sleeps _h1 hsum
      rw [processAttempts]
      cases hb : b calls with
      | ok t => simp
      | error e =>
          by_cases hat : ((attempt : Nat) : Int) = cfg.max_retries
          · simp [hat]
          · have hm : 1 ≤ m := by
              rcases Nat.eq_zero_or_pos m with h0 | h1
              · exfalso; apply hat; push_cast at hsum ⊢; omega
              · exact h1
            have := ih (attempt + 1) (calls + 1) (sleeps ++ [cfg.retry_delay]) hm
              (by push_cast; push_cast at hsum; omega)
            simp only [if_neg hat]
            exact this

/-!
## Claims about the retry loop (C1, C3, C4, C9)
-/

/-- C1: for every agent with retry policy `max_retries = n ≥ 0` and every
backend that raises on its first `k ≤ n` attempts (timeout or any other
exception) and returns text `t` on attempt `k+1`, `process_message` returns a
success envelope with `content = t` and metadata carrying the agent name and
the 1-based attempt number `k+1`, after exactly `k + 1` backend invocations
and exactly `k` sleeps of `retry_delay` seconds (one per failed non-final
attempt, none after the success). -/
theorem claim_C1_retry_success (name : String) (ctx : PyVal) (delay : Int) (t : String)
    (b : Backend) (n k : Nat) (hk : k ≤ n)
    (hfail : ∀ i, i < k → ∃ e, b i = Except.error e)
    (hok : b k = Except.ok t) :
    process_message ⟨name, (n : Int), delay⟩ ctx b =
      (Option.some
        { content := t
          metadata := [("agent", PyVal.str name),
                       ("attempt", PyVal.int ((k : Int) + 1)),
                       ("context", ctx)]
          success := true },
       k + 1, List.replicate k delay) := by
  have h1 : process_message ⟨name, (n : Int), delay⟩ ctx b
      = processAttempts ⟨name, (n : Int), delay⟩ ctx b (n + 1) 0 0 [] := by
    have hfuel : ((n : Int) + 1).toNat = n + 1 := by omega
    show processAttempts ⟨name, (n : Int), delay⟩ ctx b ((n : Int) + 1).toNat 0 0 [] = _
    rw [hfuel]
  have main := processAttempts_success ⟨name, (n : Int), delay⟩ ctx b t k (n + 1) 0 0 []
    (Nat.lt_succ_of_le hk)
    (fun i hi => by simpa using hfail i hi)
    (fun i hi => by
      change ((0 + i : Nat) : Int) ≠ (n : Int)
      omega)
    (by simpa using hok)
  rw [h1, main]
  simp

theorem claim_C1_retry_success_witness :
    process_message ⟨"A", ((2 : Nat) : Int), 5⟩ PyVal.none
        (fun i => if i < 2 then Except.error PyExc.timeoutError else Except.ok "ok") =
      (Option.some
        { content := "ok"
          metadata := [("agent", PyVal.str "A"),
                       ("attempt", PyVal.int (((2 : Nat) : Int) + 1)),
                       ("context", PyVal.none)]
          success := true },
       2 + 1, List.replicate 2 5) :=
  claim_C1_retry_success "A" PyVal.none 5 "ok"
    (fun i => if i < 2 then Except.error PyExc.timeoutError else Except.ok "ok") 2 2
    (Nat.le_refl 2)
    (fun i hi => ⟨PyExc.timeoutError, by simp [hi]⟩)
    (by norm_num)

/-- C3: for every agent with `max_retries = n ≥ 0` and every backend that
raises on all `n + 1` attempts, `process_message` returns a failure envelope
with `error` equal to `str` of the exception raised on the final attempt and
empty `content`, after `n + 1` invocations and `n` retry sleeps. -/
theorem claim_C3_retry_exhaustion (name : String) (ctx : PyVal) (delay : Int)
    (b : Backend) (es : Nat → PyExc) (n : Nat)
    (hfail : ∀ i, i ≤ n → b i = Except.error (es i)) :
    process_message ⟨name, (n : Int), delay⟩ ctx b =
      (Option.some
        { content := ""
          metadata := [("agent", PyVal.str name), ("context", ctx)]
          success := false
          error := Option.some (es n).toStr },
       n + 1, List.replicate n delay) := by
  have h1 : process_message ⟨name, (n : Int), delay⟩ ctx b
      = processAttempts ⟨name, (n : Int), delay⟩ ctx b (n + 1) 0 0 [] := by
    have hfuel : ((n : Int) + 1).toNat = n + 1 := by omega
    show processAttempts ⟨name, (n : Int), delay⟩ ctx b ((n : Int) + 1).toNat 0 0 [] = _
    rw [hfuel]
  have main := processAttempts_exhaust ⟨name, (n : Int), delay⟩ ctx b es n 0 0 []
    (fun i hi => by simpa using hfail i hi)
    (fun i hi => by
      change ((0 + i : Nat) : Int) ≠ (n : Int)
      omega)
    (by
      change ((0 + n : Nat) : Int) = (n : Int)
      omega)
  rw [h1, main]
  simp

theorem claim_C3_retry_exhaustion_witness :
    process_message ⟨"A", ((1 : Nat) : Int), 7⟩ PyVal.none
        (fun _ => Except.error (PyExc.exc "boom")) =
      (Option.some
        { content := ""
          metadata := [("agent", PyVal.str "A"), ("context", PyVal.none)]
          success := false
          error := Option.some (PyExc.exc "boom").toStr },
       1 + 1, List.replicate 1 7) :=
  claim_C3_retry_exhaustion "A" PyVal.none 7
    (fun _ => Except.error (PyExc.exc "boom")) (fun _ => PyExc.exc "boom") 1
    (fun _ _ => rfl)

/-- C4: for every context and every backend behaviour (any mix of returned
texts, timeouts and other exceptions), `process_message` on an agent with
`max_retries ≥ 0` returns an `AgentResponse` envelope.  The embedding is
total because the outer `except Exception` handler of `process_message`
catches every exception the loop re-raises, so no exception reaches the
caller; the input message only feeds the opaque backend, whose behaviour is
quantified here. -/
theorem claim_C4_never_raises (name : String) (ctx : PyVal) (delay : Int)
    (b : Backend) (n : Nat) :
    ∃ env : AgentResponse,
      (process_message ⟨name, (n : Int), delay⟩ ctx b).1 = Option.some env := by
  have h1 : process_message ⟨name, (n : Int), delay⟩ ctx b
      = processAttempts ⟨name, (n : Int), delay⟩ ctx b (n + 1) 0 0 [] := by
    have hfuel : ((n : Int) + 1).toNat = n + 1 := by omega
    show processAttempts ⟨name, (n : Int), delay⟩ ctx b ((n : Int) + 1).toNat 0 0 [] = _
    rw [hfuel]
  rw [h1]
  exact Option.isSome_iff_exists.mp
    (processAttempts_isSome ⟨name, (n : Int), delay⟩ ctx b (n + 1) 0 0 []
      (Nat.succ_le_succ (Nat.zero_le n)) (by push_cast; ring))

/-- C9: with a negative `max_retries`, `range(max_retries + 1)` is empty, so
the loop body never runs: zero backend invocations, zero sleeps, and
`process_message` falls through and returns Python `None` instead of an
`AgentResponse` envelope. -/
theorem claim_C9_negative_retries_returns_none (name : String) (ctx : PyVal)
    (delay : Int) (b : Backend) (m : Int) (hm : m < 0) :
    process_message ⟨name, m, delay⟩ ctx b = (Option.none, 0, []) := by
  have hfuel : (m + 1).toNat = 0 := by omega
  show processAttempts ⟨name, m, delay⟩ ctx b (m + 1).toNat 0 0 [] = _
  rw [hfuel]
  rfl

theorem claim_C9_negative_retries_witness :
    process_message ⟨"A", -1, 5⟩ PyVal.none (fun _ => Except.ok "ok") =
      (Option.none, 0, []) :=
  claim_C9_negative_retries_returns_none "A" PyVal.none 5 (fun _ => Except.ok "ok")
    (-1) (by norm_num)

/-!
## Workflow history bookkeeping (src/agents/coordinator.py lines 496-515)
-/

/-- One `execution_record` dict built by
`CoordinatorAgent._record_workflow_execution`. -/
structure ExecRecord where
  workflow_id : PyVal
  timestamp : String
  success : Bool
  steps_count : Nat
  successful_steps : Nat

/-- The `execution_record` literal (coordinator.py lines 503-509):
`sum(1 for result in results if result.success)` counts successful steps. -/
def mkExecRecord (workflow_id : PyVal) (now : String) (success : Bool)
    (results : List AgentResponse) : ExecRecord :=
  { workflow_id := workflow_id
    timestamp := now
    success := success
    steps_count := results.length
    successful_steps := (results.filter (fun r => r.success)).length }

/-- `CoordinatorAgent._record_workflow_execution` (coordinator.py lines
496-515): append the record, then trim to the last 100 entries
(`self.workflow_history[-100:]`) when the length exceeds 100. -/
def record_workflow_execution (history : List ExecRecord) (record : ExecRecord) :
    List ExecRecord :=
  let history := history ++ [record]
  if history.length > 100 then history.drop (history.length - 100) else history

/-- C10: after every recorded workflow execution the history holds at most 100
records — exactly `min (n+1) 100` of them — and is a suffix of the appended
list, i.e. the oldest records are the ones discarded and the 100 most recent
remain in recording order. -/
theorem claim_C10_history_bounded (history : List ExecRecord) (record : ExecRecord) :
    (record_workflow_execution history record).length = min (history.length + 1) 100 ∧
    record_workflow_execution history record <:+ history ++ [record] := by
  unfold record_workflow_execution
  by_cases h : (history ++ [record]).length > 100
  · rw [if_pos h]
    refine ⟨?_, List.drop_suffix _ _⟩
    rw [List.length_drop]
    simp only [List.length_append, List.length_singleton] at h ⊢
    omega
  · rw [if_neg h]
    refine ⟨?_, List.suffix_refl _⟩
    simp only [List.length_append, List.length_singleton] at h ⊢
    omega

/-!
## Construction-time configuration check
(src/config/settings.py, src/agents/base_agent.py lines 40-75)
-/

/-- The Gemini-relevant fields of `Settings` (src/config/settings.py lines
15-18).  `GOOGLE_API_KEY` defaults to the placeholder
`"your_google_api_key_here"` when the environment does not set it. -/
structure Settings where
  GOOGLE_API_KEY : String
  GEMINI_MODEL : String
  GEMINI_TEMPERATURE : Rat
  GEMINI_MAX_TOKENS : Int

/-- `Settings.has_gemini_config` (settings.py lines 150-153):
`bool(self.GOOGLE_API_KEY and self.GOOGLE_API_KEY != "your_google_api_key_here")`. -/
def Settings.has_gemini_config (s : Settings) : Bool :=
  s.GOOGLE_API_KEY != "" && s.GOOGLE_API_KEY != "your_google_api_key_here"

/-- The constructed LLM client object (opaque; only its configuration is
recorded). -/
structure ChatGoogleGenerativeAI where
  model : String
  temperature : Rat
  max_output_tokens : Int
  google_api_key : String

/-- `BaseAgent._initialize_llm` (base_agent.py lines 65-75): returns the
client when Gemini is configured, otherwise raises `ValueError`
(modelled as `Except.error`). -/
def init_llm (s : Settings) : Except String ChatGoogleGenerativeAI :=
  if s.has_gemini_config then
    Except.ok
      { model := s.GEMINI_MODEL
        temperature := s.GEMINI_TEMPERATURE
        max_output_tokens := s.GEMINI_MAX_TOKENS
        google_api_key := s.GOOGLE_API_KEY }
  else
    Except.error "No LLM configuration found. Please configure Google API key for Gemini."

/-- A fully constructed `BaseAgent` instance (base_agent.py lines 40-63). -/
structure BaseAgentObj where
  name : String
  description : String
  llm : ChatGoogleGenerativeAI
  max_retries : Int
  retry_delay : Int
  timeout : Int

/-- `BaseAgent.__init__` (base_agent.py lines 40-63): `self.llm =
self._initialize_llm()` runs before anything else can use the agent, so a
configuration error aborts construction. -/
def BaseAgent.construct (s : Settings) (name description : String)
    (max_retries retry_delay timeout : Int) : Except String BaseAgentObj :=
  match init_llm s with
  | Except.error e => Except.error e
  | Except.ok llm =>
      Except.ok
        { name := name, description := description, llm := llm
          max_retries := max_retries, retry_delay := retry_delay, timeout := timeout }

/-- C8: constructing any agent when the Gemini API key is absent (left at the
pydantic placeholder default) or empty raises `ValueError` at construction
time: the result is an exception, not an agent instance, and in particular
not an `AgentResponse` failure envelope. -/
theorem claim_C8_construction_raises_without_key (s : Settings)
    (name description : String) (max_retries retry_delay timeout : Int)
    (h : s.GOOGLE_API_KEY = "your_google_api_key_here" ∨ s.GOOGLE_API_KEY = "") :
    BaseAgent.construct s name description max_retries retry_delay timeout =
      Except.error "No LLM configuration found. Please configure Google API key for Gemini." := by
  have hconf : s.has_gemini_config = false := by
    unfold Settings.has_gemini_config
    rcases h with h | h <;> simp [h]
  unfold BaseAgent.construct init_llm
  rw [hconf]
  rfl

theorem claim_C8_construction_raises_witness :
    BaseAgent.construct ⟨"your_google_api_key_here", "gemini-2.0-flash-lite", 7/10, 4000⟩
        "Planner" "Schedule optimization and time management specialist" 3 5 300 =
      Except.error "No LLM configuration found. Please configure Google API key for Gemini." :=
  claim_C8_construction_raises_without_key
    ⟨"your_google_api_key_here", "gemini-2.0-flash-lite", 7/10, 4000⟩
    "Planner" "Schedule optimization and time management specialist" 3 5 300
    (Or.inl rfl)

/-!
## Additional Python primitives used by the agents
-/

/-- `v >= n` comparison against an int literal; raises `TypeError` on
non-numeric operands (Python treats `bool` as numeric). -/
def pyGeInt (v : PyVal) (n : Int) : Except String Bool :=
  match v with
  | .int m => Except.ok (decide (n ≤ m))
  | .float q => Except.ok (decide ((n : Rat) ≤ q))
  | .bool b => Except.ok (decide (n ≤ (if b then (1 : Int) else 0)))
  | _ => Except.error "TypeError: unsupported comparison against int"

/-- `v <= n` comparison against an int literal. -/
def pyLeInt (v : PyVal) (n : Int) : Except String Bool :=
  match v with
  | .int m => Except.ok (decide (m ≤ n))
  | .float q => Except.ok (decide (q ≤ (n : Rat)))
  | .bool b => Except.ok (decide ((if b then (1 : Int) else 0) ≤ n))
  | _ => Except.error "TypeError: unsupported comparison against int"

/-- `v.items()`: raises `AttributeError` unless `v` is a mapping. -/
def pyItems (v : PyVal) : Except String (List (String × PyVal)) :=
  match v with
  | .dict d => Except.ok d
  | _ => Except.error "AttributeError: object has no attribute items"

/-- `v[0]` with an integer index. -/
def pyIndexNat (v : PyVal) (i : Nat) : Except String PyVal :=
  match v with
  | .list xs =>
      match xs.get? i with
      | Option.some x => Except.ok x
      | Option.none => Except.error "IndexError: list index out of range"
  | .str s =>
      match s.toList.get? i with
      | Option.some c => Except.ok (PyVal.str (String.mk [c]))
      | Option.none => Except.error "IndexError: string index out of range"
  | _ => Except.error "TypeError: object is not subscriptable"

/-- `len(v)`: raises `TypeError` on unsized values. -/
def pyLen (v : PyVal) : Except String Nat :=
  match v with
  | .str s => Except.ok s.length
  | .list xs => Except.ok xs.length
  | .dict d => Except.ok d.length
  | _ => Except.error "TypeError: object has no len"

/-- `v + timedelta(days=d)`: only defined on `datetime` values. -/
def pyAddDays (v : PyVal) (days : Int) : Except String PyVal :=
  match v with
  | .date d => Except.ok (PyVal.date (d + days))
  | _ => Except.error "TypeError: unsupported operand type for timedelta addition"

/-- Association lookup in a Python-keyed dict (`d[k]` / `k in d` shape used
for per-student stores whose keys come from task values). -/
def pyAssocGet {α : Type} (m : List (PyVal × α)) (k : PyVal) : Option α :=
  match m with
  | [] => Option.none
  | (l, v) :: rest => if PyVal.beq l k then Option.some v else pyAssocGet rest k

/-- Insertion-order-preserving update of a Python-keyed dict. -/
def pyAssocSet {α : Type} (m : List (PyVal × α)) (k : PyVal) (v : α) :
    List (PyVal × α) :=
  match m with
  | [] => [(k, v)]
  | (l, w) :: rest =>
      if PyVal.beq l k then (k, v) :: rest else (l, w) :: pyAssocSet rest k v

/-- `k in d` for a Python-keyed dict. -/
def pyAssocHas {α : Type} (m : List (PyVal × α)) (k : PyVal) : Bool :=
  (pyAssocGet m k).isSome

/-- `task.get("type", "unknown")` dispatch plus the identical
`_handle_unknown_task` bodies of the planner (planner.py lines 714-733),
notewriter (notewriter.py lines 928-947), advisor (advisor.py lines 765-784)
and coordinator (coordinator.py lines 456-475). -/
def handle_unknown_task (task : PyDict) : AgentResponse :=
  let task_type := PyDict.getD task "type" (PyVal.str "unknown")
  { content := "Unknown task type: " ++ task_type.toText
    metadata := [("task", PyVal.dict task)]
    success := false
    error := Option.some ("Unsupported task type: " ++ task_type.toText) }

/-!
## PlannerAgent (src/agents/planner.py)

The planner's handlers never call `process_message` or the LLM (no reference
to either appears anywhere in planner.py), so this embedding takes no
backend: the number of backend invocations during `Planner.process_task` is
identically zero.  `datetime.now().isoformat()` is the injected `now`.
-/

namespace Planner

/-- `TimeSlot` dataclass (planner.py lines 18-27).  Fields that receive
task-supplied values are `PyVal`; `activity` is always built by an f-string. -/
structure TimeSlot where
  day : PyVal
  start_time : PyVal
  end_time : PyVal
  activity : String
  priority : PyVal := PyVal.int 1
  energy_level : PyVal := PyVal.str "medium"
  flexibility : Rat := 1/2

/-- `StudySession` dataclass (planner.py lines 30-38). -/
structure StudySession where
  subject : PyVal
  duration : PyVal
  learning_style : PyVal
  difficulty : PyVal
  energy_requirement : PyVal
  deadline : PyVal := PyVal.none

/-- The `analysis` dict built by `_analyze_energy_patterns` (hour keys are
strings, see the `PyVal` convention). -/
structure EnergyAnalysis where
  peak_hours : List String
  low_energy_hours : List String
  recommended_break_times : List PyVal

/-- The per-student record stored in `self.student_schedules` (planner.py
lines 129-135). -/
structure ScheduleRecord where
  schedule : List TimeSlot
  energy_pattern : EnergyAnalysis
  learning_preferences : PyVal
  created_at : String
  last_updated : String

/-- The `deadline_info` dict (planner.py lines 326-331). -/
structure DeadlineInfo where
  subject : PyVal
  deadline : PyVal
  priority : PyVal
  description : PyVal

/-- The planner's mutable per-agent state (planner.py lines 60-62;
`self.energy_patterns` is created but never used). -/
structure PlannerState where
  student_schedules : List (PyVal × ScheduleRecord)
  energy_patterns : List (PyVal × PyVal)
  deadline_tracker : List (PyVal × List DeadlineInfo)

/-- Structural encoding of a `TimeSlot` object for envelope metadata. -/
def TimeSlot.toPy (t : TimeSlot) : PyVal :=
  PyVal.dict [("day", t.day), ("start_time", t.start_time), ("end_time", t.end_time),
              ("activity", PyVal.str t.activity), ("priority", t.priority),
              ("energy_level", t.energy_level), ("flexibility", PyVal.float t.flexibility)]

/-- Structural encoding of the energy analysis dict for envelope metadata. -/
def EnergyAnalysis.toPy (a : EnergyAnalysis) : PyVal :=
  PyVal.dict [("peak_hours", PyVal.list (a.peak_hours.map PyVal.str)),
              ("low_energy_hours", PyVal.list (a.low_energy_hours.map PyVal.str)),
              ("recommended_break_times", PyVal.list a.recommended_break_times)]

/-- Structural encoding of a `deadline_info` dict for envelope metadata. -/
def DeadlineInfo.toPy (d : DeadlineInfo) : PyVal :=
  PyVal.dict [("subject", d.subject), ("deadline", d.deadline),
              ("priority", d.priority), ("description", d.description)]

/-- `PlannerAgent._analyze_energy_patterns` (planner.py lines 508-525). -/
def analyze_energy_patterns (energy_pattern : PyVal) : Except String EnergyAnalysis := do
  let hourly ← pyGetD energy_pattern "hourly_energy" (PyVal.dict [])
  let items ← pyItems hourly
  items.foldlM
    (fun acc kv => do
      let hi ← pyGeInt kv.snd 8
      if hi then
        Except.ok { acc with peak_hours := acc.peak_hours ++ [kv.fst] }
      else do
        let lo ← pyLeInt kv.snd 4
        if lo then
          Except.ok { acc with low_energy_hours := acc.low_energy_hours ++ [kv.fst] }
        else
          Except.ok acc)
    (⟨[], [], []⟩ : EnergyAnalysis)

/-- `PlannerAgent._create_study_sessions` (planner.py lines 527-545). -/
def create_study_sessions (subjects learning_preferences : PyVal) :
    Except String (List StudySession) := do
  let subjectList ← pyIter subjects
  subjectList.mapM (fun subject => do
    let sname ← pyGet subject "name"
    let duration ← pyGetD subject "recommended_duration" (PyVal.int 60)
    let style ← pyGetD learning_preferences "preferred_style" (PyVal.str "visual")
    let difficulty ← pyGetD subject "difficulty" (PyVal.str "medium")
    let energy ← pyGetD subject "energy_requirement" (PyVal.str "medium")
    Except.ok ({ subject := sname, duration := duration, learning_style := style,
                 difficulty := difficulty, energy_requirement := energy } : StudySession))

/-- The first loop of `_find_optimal_slot_for_energy_level` (planner.py lines
589-597), entered only when `preferred_hours` is truthy. -/
def findPreferredSlot (subject : PyVal) (energy_level : PyVal)
    (preferred : List String) : List PyVal → Except String (Option TimeSlot)
  | [] => Except.ok Option.none
  | time_slot :: rest => do
      let hour ← pyGet time_slot "hour"
      if preferred.any (fun h => PyVal.beq hour (PyVal.str h)) then do
        let day ← pySubscript time_slot "day"
        let st ← pySubscript time_slot "start_time"
        let en ← pySubscript time_slot "end_time"
        Except.ok (Option.some
          { day := day, start_time := st, end_time := en
            activity := "Study: " ++ subject.toText
            energy_level := energy_level })
      else
        findPreferredSlot subject energy_level preferred rest

/-- `PlannerAgent._find_optimal_slot_for_energy_level` (planner.py lines
580-610): preferred-hours pass, then fallback to the first available slot. -/
def find_optimal_slot_for_energy_level (available_time : PyVal)
    (session : StudySession) (energy_level : PyVal)
    (preferred_hours : Option (List String)) : Except String (Option TimeSlot) := do
  let slots ← pyIter available_time
  let hit ←
    match preferred_hours with
    | Option.some pref =>
        if pref.isEmpty then Except.ok Option.none
        else findPreferredSlot session.subject energy_level pref slots
    | Option.none => Except.ok Option.none
  match hit with
  | Option.some ts => Except.ok (Option.some ts)
  | Option.none =>
      if available_time.truthy then do
        let slot ← pyIndexNat available_time 0
        let day ← pySubscript slot "day"
        let st ← pySubscript slot "start_time"
        let en ← pySubscript slot "end_time"
        Except.ok (Option.some
          { day := day, start_time := st, end_time := en
            activity := "Study: " ++ session.subject.toText
            energy_level := energy_level })
      else
        Except.ok Option.none

/-- `PlannerAgent._optimize_time_allocation` (planner.py lines 547-578). -/
def optimize_time_allocation (available_time : PyVal)
    (study_sessions : List StudySession) (energy_analysis : EnergyAnalysis) :
    Except String (List TimeSlot) := do
  let high := study_sessions.filter
    (fun s => PyVal.beq s.energy_requirement (PyVal.str "high"))
  let medium := study_sessions.filter
    (fun s => PyVal.beq s.energy_requirement (PyVal.str "medium"))
  let low := study_sessions.filter
    (fun s => PyVal.beq s.energy_requirement (PyVal.str "low"))
  let schedule1 ← high.foldlM
    (fun acc session => do
      let slot ← find_optimal_slot_for_energy_level available_time session
        (PyVal.str "high") (Option.some energy_analysis.peak_hours)
      match slot with
      | Option.some ts => Except.ok (acc ++ [ts])
      | Option.none => Except.ok acc)
    ([] : List TimeSlot)
  (medium ++ low).foldlM
    (fun acc session => do
      let slot ← find_optimal_slot_for_energy_level available_time session
        session.energy_requirement Option.none
      match slot with
      | Option.some ts => Except.ok (acc ++ [ts])
      | Option.none => Except.ok acc)
    schedule1

/-- `PlannerAgent._find_optimal_time_slot` (planner.py lines 612-624): the
fixed Monday slot. -/
def find_optimal_time_slot (_schedule : List TimeSlot) (_session : StudySession) :
    Option PyDict :=
  Option.some [("day", PyVal.str "Monday"), ("start_time", PyVal.str "10:00"),
               ("end_time", PyVal.str "11:00")]

/-- `PlannerAgent._extract_available_time` (planner.py lines 626-635). -/
def extract_available_time (_schedule : List TimeSlot) : PyVal :=
  PyVal.list
    [PyVal.dict [("day", PyVal.str "Monday"), ("start_time", PyVal.str "09:00"),
                 ("end_time", PyVal.str "17:00")],
     PyVal.dict [("day", PyVal.str "Tuesday"), ("start_time", PyVal.str "09:00"),
                 ("end_time", PyVal.str "17:00")],
     PyVal.dict [("day", PyVal.str "Wednesday"), ("start_time", PyVal.str "09:00"),
                 ("end_time", PyVal.str "17:00")],
     PyVal.dict [("day", PyVal.str "Thursday"), ("start_time", PyVal.str "09:00"),
                 ("end_time", PyVal.str "17:00")],
     PyVal.dict [("day", PyVal.str "Friday"), ("start_time", PyVal.str "09:00"),
                 ("end_time", PyVal.str "17:00")]]

/-- `PlannerAgent._extract_study_sessions` (planner.py lines 637-650):
keeps slots whose activity contains `"Study:"`. -/
def extract_study_sessions (schedule : List TimeSlot) : List StudySession :=
  schedule.foldl
    (fun acc slot =>
      if (slot.activity.splitOn "Study:").length != 1 then
        acc ++ [{ subject := PyVal.str (slot.activity.replace "Study: " "")
                  duration := PyVal.int 60
                  learning_style := PyVal.str "mixed"
                  difficulty := PyVal.str "medium"
                  energy_requirement := slot.energy_level }]
      else acc)
    []

/-- `PlannerAgent._apply_optimization_strategies` (planner.py lines 652-659):
returns the schedule unchanged. -/
def apply_optimization_strategies (schedule : List TimeSlot) (_criteria : PyVal) :
    List TimeSlot :=
  schedule

/-- `PlannerAgent._prioritize_by_deadlines` (planner.py lines 661-668):
returns the schedule unchanged. -/
def prioritize_by_deadlines (schedule : List TimeSlot)
    (_deadlines : List DeadlineInfo) : List TimeSlot :=
  schedule

/-- `PlannerAgent._apply_schedule_changes` (planner.py lines 670-677):
returns the schedule unchanged. -/
def apply_schedule_changes (schedule : List TimeSlot) (_changes : PyVal) :
    List TimeSlot :=
  schedule

/-- `PlannerAgent._calculate_spaced_repetition_intervals` (planner.py lines
679-682). -/
def calculate_spaced_repetition_intervals (_initial_date : PyVal) : List Int :=
  [1, 3, 7, 14, 30, 90]

/-- `PlannerAgent._generate_schedule_summary` (planner.py lines 684-691). -/
def generate_schedule_summary (schedule : List TimeSlot) : String :=
  schedule.foldl
    (fun acc slot =>
      acc ++ "📚 " ++ slot.day.toText ++ " " ++ slot.start_time.toText ++ "-" ++
        slot.end_time.toText ++ ": " ++ slot.activity ++ "\n")
    "📅 Personalized Study Schedule Created\n\n"

/-- `PlannerAgent._generate_optimization_summary` (planner.py lines 693-699). -/
def generate_optimization_summary (original optimized : List TimeSlot) : String :=
  "✅ Schedule optimized successfully!\n\nOriginal sessions: " ++
    toString original.length ++ "\nOptimized sessions: " ++ toString optimized.length

/-- `PlannerAgent._generate_deadline_summary` (planner.py lines 701-708). -/
def generate_deadline_summary (deadlines : List DeadlineInfo) : String :=
  deadlines.foldl
    (fun acc d => acc ++ "📝 " ++ d.subject.toText ++ ": " ++ d.deadline.toText ++ "\n")
    "⏰ Deadline Management Summary\n\n"

/-- `PlannerAgent._generate_adaptation_summary` (planner.py lines 710-712). -/
def generate_adaptation_summary (changesCount : Nat) : String :=
  "🔄 Schedule adapted successfully!\n\nChanges applied: " ++
    toString changesCount ++ " modifications"

/-- `PlannerAgent._create_schedule` (planner.py lines 96-161). -/
def create_schedule (now : String) (task : PyDict) (st : PlannerState) :
    AgentResponse × PlannerState :=
  let student_id := PyDict.get task "student_id"
  let available_time := PyDict.getD task "available_time" (PyVal.list [])
  let subjects := PyDict.getD task "subjects" (PyVal.list [])
  let learning_preferences := PyDict.getD task "learning_preferences" (PyVal.dict [])
  let energy_pattern := PyDict.getD task "energy_pattern" (PyVal.dict [])
  if !student_id.truthy then
    ({ content := ""
       metadata := [("task", PyVal.dict task)]
       success := false
       error := Option.some "Student ID is required" }, st)
  else
    match (do
      let energy_analysis ← analyze_energy_patterns energy_pattern
      let study_sessions ← create_study_sessions subjects learning_preferences
      let optimized ← optimize_time_allocation available_time study_sessions energy_analysis
      Except.ok (energy_analysis, study_sessions, optimized)) with
    | Except.error e =>
        ({ content := ""
           metadata := [("student_id", student_id)]
           success := false
           error := Option.some e }, st)
    | Except.ok (energy_analysis, study_sessions, optimized) =>
        let st2 := { st with student_schedules :=
          (pyAssocSet st.student_schedules student_id
            { schedule := optimized
              energy_pattern := energy_analysis
              learning_preferences := learning_preferences
              created_at := now
              last_updated := now }) }
        ({ content := generate_schedule_summary optimized
           metadata := [("student_id", student_id),
                        ("schedule", PyVal.list (optimized.map TimeSlot.toPy)),
                        ("energy_analysis", energy_analysis.toPy),
                        ("sessions_count", PyVal.int study_sessions.length)]
           success := true }, st2)

/-- `PlannerAgent._optimize_schedule` (planner.py lines 163-217).  The try
body performs no raising operation, so the `except` arm is unreachable. -/
def optimize_schedule (now : String) (task : PyDict) (st : PlannerState) :
    AgentResponse × PlannerState :=
  let student_id := PyDict.get task "student_id"
  let criteria := PyDict.getD task "criteria" (PyVal.dict [])
  match pyAssocGet st.student_schedules student_id with
  | Option.none =>
      ({ content := ""
         metadata := [("task", PyVal.dict task)]
         success := false
         error := Option.some ("No schedule found for student " ++ student_id.toText) }, st)
  | Option.some sched =>
      let current := sched.schedule
      let optimized := apply_optimization_strategies current criteria
      let st2 := { st with student_schedules :=
        (pyAssocSet st.student_schedules student_id
          { sched with schedule := optimized, last_updated := now }) }
      ({ content := generate_optimization_summary current optimized
         metadata := [("student_id", student_id),
                      ("optimized_schedule", PyVal.list (optimized.map TimeSlot.toPy)),
                      ("criteria", criteria)]
         success := true }, st2)

/-- `PlannerAgent._add_study_session` (planner.py lines 219-302).  The
in-place `current_schedule.append` is immediately superseded by the
`["schedule"] = optimized_schedule` assignment, and no operation between the
two can raise, so only the final assignment is visible in the state. -/
def add_study_session (now : String) (task : PyDict) (st : PlannerState) :
    AgentResponse × PlannerState :=
  let student_id := PyDict.get task "student_id"
  let session_data := PyDict.getD task "session" (PyVal.dict [])
  match pyAssocGet st.student_schedules student_id with
  | Option.none =>
      ({ content := ""
         metadata := [("task", PyVal.dict task)]
         success := false
         error := Option.some ("No schedule found for student " ++ student_id.toText) }, st)
  | Option.some sched =>
      match (do
        let subj ← pyGet session_data "subject"
        let dur ← pyGetD session_data "duration" (PyVal.int 60)
        let style ← pyGetD session_data "learning_style" (PyVal.str "visual")
        let diff ← pyGetD session_data "difficulty" (PyVal.str "medium")
        let energy ← pyGetD session_data "energy_requirement" (PyVal.str "medium")
        let ddl ← pyGet session_data "deadline"
        let study_session : StudySession :=
          { subject := subj, duration := dur, learning_style := style
            difficulty := diff, energy_requirement := energy, deadline := ddl }
        match find_optimal_time_slot sched.schedule study_session with
        | Option.some optimal_slot => do
            let prio ← pyGetD session_data "priority" (PyVal.int 1)
            let new_time_slot : TimeSlot :=
              { day := PyDict.get optimal_slot "day"
                start_time := PyDict.get optimal_slot "start_time"
                end_time := PyDict.get optimal_slot "end_time"
                activity := "Study: " ++ study_session.subject.toText
                priority := prio
                energy_level := study_session.energy_requirement }
            let appended := sched.schedule ++ [new_time_slot]
            let optimized ← optimize_time_allocation (extract_available_time appended)
              [study_session] sched.energy_pattern
            Except.ok (Option.some (study_session, optimal_slot, optimized))
        | Option.none => Except.ok Option.none) with
      | Except.error e =>
          ({ content := ""
             metadata := [("student_id", student_id)]
             success := false
             error := Option.some e }, st)
      | Except.ok Option.none =>
          ({ content := ""
             metadata := [("student_id", student_id)]
             success := false
             error := Option.some "No suitable time slot found for the study session" }, st)
      | Except.ok (Option.some (study_session, optimal_slot, optimized)) =>
          let st2 := { st with student_schedules :=
            (pyAssocSet st.student_schedules student_id
              { sched with schedule := optimized, last_updated := now }) }
          ({ content := "Study session for " ++ study_session.subject.toText ++
               " added successfully"
             metadata := [("student_id", student_id), ("session", session_data),
                          ("optimal_slot", PyVal.dict optimal_slot)]
             success := true }, st2)

/-- `PlannerAgent._manage_deadlines` (planner.py lines 304-369).  The tracker
entry for the student is created before `deadline_info` is built, so that
mutation survives even when building `deadline_info` raises. -/
def manage_deadlines (now : String) (task : PyDict) (st : PlannerState) :
    AgentResponse × PlannerState :=
  let student_id := PyDict.get task "student_id"
  let deadline_data := PyDict.getD task "deadline" (PyVal.dict [])
  match pyAssocGet st.student_schedules student_id with
  | Option.none =>
      ({ content := ""
         metadata := [("task", PyVal.dict task)]
         success := false
         error := Option.some ("No schedule found for student " ++ student_id.toText) }, st)
  | Option.some sched =>
      let tracker0 :=
        if pyAssocHas st.deadline_tracker student_id then st.deadline_tracker
        else pyAssocSet st.deadline_tracker student_id []
      let st1 := { st with deadline_tracker := tracker0 }
      match (do
        let subj ← pyGet deadline_data "subject"
        let ddl ← pyGet deadline_data "deadline"
        let prio ← pyGetD deadline_data "priority" (PyVal.int 1)
        let desc ← pyGetD deadline_data "description" (PyVal.str "")
        Except.ok (⟨subj, ddl, prio, desc⟩ : DeadlineInfo)) with
      | Except.error e =>
          ({ content := ""
             metadata := [("student_id", student_id)]
             success := false
             error := Option.some e }, st1)
      | Except.ok dinfo =>
          let deadlines :=
            (match pyAssocGet st1.deadline_tracker student_id with
             | Option.some ds => ds
             | Option.none => []) ++ [dinfo]
          let st2 := { st1 with deadline_tracker :=
            (pyAssocSet st1.deadline_tracker student_id deadlines) }
          let updated := prioritize_by_deadlines sched.schedule deadlines
          let st3 := { st2 with student_schedules :=
            (pyAssocSet st2.student_schedules student_id
              { sched with schedule := updated, last_updated := now }) }
          ({ content := generate_deadline_summary deadlines
             metadata := [("student_id", student_id), ("deadline", dinfo.toPy),
                          ("updated_schedule", PyVal.list (updated.map TimeSlot.toPy))]
             success := true }, st3)

/-- `PlannerAgent._adapt_schedule` (planner.py lines 371-428). -/
def adapt_schedule (now : String) (task : PyDict) (st : PlannerState) :
    AgentResponse × PlannerState :=
  let student_id := PyDict.get task "student_id"
  let changes := PyDict.getD task "changes" (PyVal.dict [])
  match pyAssocGet st.student_schedules student_id with
  | Option.none =>
      ({ content := ""
         metadata := [("task", PyVal.dict task)]
         success := false
         error := Option.some ("No schedule found for student " ++ student_id.toText) }, st)
  | Option.some sched =>
      match (do
        let adapted0 := apply_schedule_changes sched.schedule changes
        let reopt ← pyGetD changes "reoptimize" (PyVal.bool false)
        let adapted ←
          if reopt.truthy then
            optimize_time_allocation (extract_available_time adapted0)
              (extract_study_sessions adapted0) sched.energy_pattern
          else
            Except.ok adapted0
        let n ← pyLen changes
        Except.ok (adapted, n)) with
      | Except.error e =>
          ({ content := ""
             metadata := [("student_id", student_id)]
             success := false
             error := Option.some e }, st)
      | Except.ok (adapted, n) =>
          let st2 := { st with student_schedules :=
            (pyAssocSet st.student_schedules student_id
              { sched with schedule := adapted, last_updated := now }) }
          ({ content := generate_adaptation_summary n
             metadata := [("student_id", student_id), ("changes", changes),
                          ("adapted_schedule", PyVal.list (adapted.map TimeSlot.toPy))]
             success := true }, st2)

/-- `PlannerAgent._schedule_spaced_repetition` (planner.py lines 430-506).
`_find_optimal_time_slot` ignores the growing schedule, so the appended
review slots are computed independently and concatenated. -/
def schedule_spaced_repetition (now : String) (task : PyDict) (st : PlannerState) :
    AgentResponse × PlannerState :=
  let student_id := PyDict.get task "student_id"
  let subject := PyDict.get task "subject"
  let initial_date := PyDict.get task "initial_date"
  match pyAssocGet st.student_schedules student_id with
  | Option.none =>
      ({ content := ""
         metadata := [("task", PyVal.dict task)]
         success := false
         error := Option.some ("No schedule found for student " ++ student_id.toText) }, st)
  | Option.some sched =>
      match (do
        let intervals := calculate_spaced_repetition_intervals initial_date
        let review_sessions ← intervals.enum.mapM (fun (iv : Nat × Int) => do
          let review_date ← pyAddDays initial_date iv.snd
          Except.ok ({ subject := PyVal.str (subject.toText ++ " Review " ++
                         toString (iv.fst + 1))
                       duration := PyVal.int 30
                       learning_style := PyVal.str "mixed"
                       difficulty := PyVal.str "easy"
                       energy_requirement := PyVal.str "low"
                       deadline := review_date } : StudySession))
        let added := (review_sessions.map (fun session =>
          match find_optimal_time_slot sched.schedule session with
          | Option.some optimal_slot =>
              [({ day := PyDict.get optimal_slot "day"
                  start_time := PyDict.get optimal_slot "start_time"
                  end_time := PyDict.get optimal_slot "end_time"
                  activity := "Review: " ++ session.subject.toText
                  priority := PyVal.int 2
                  energy_level := PyVal.str "low" } : TimeSlot)]
          | Option.none => [])).flatten
        Except.ok (intervals, review_sessions, added)) with
      | Except.error e =>
          ({ content := ""
             metadata := [("student_id", student_id)]
             success := false
             error := Option.some e }, st)
      | Except.ok (intervals, review_sessions, added) =>
          let st2 := { st with student_schedules :=
            (pyAssocSet st.student_schedules student_id
              { sched with schedule := sched.schedule ++ added, last_updated := now }) }
          ({ content := "Spaced repetition scheduled for " ++ subject.toText
             metadata := [("student_id", student_id), ("subject", subject),
                          ("intervals", PyVal.list (intervals.map PyVal.int)),
                          ("review_sessions", PyVal.int review_sessions.length)]
             success := true }, st2)

/-- `PlannerAgent.process_task` (planner.py lines 64-94): dispatch on
`task.get("type", "unknown")`. -/
def process_task (now : String) (task : PyDict) (st : PlannerState) :
    AgentResponse × PlannerState :=
  let task_type := PyDict.getD task "type" (PyVal.str "unknown")
  if PyVal.beq task_type (PyVal.str "create_schedule") then create_schedule now task st
  else if PyVal.beq task_type (PyVal.str "optimize_schedule") then optimize_schedule now task st
  else if PyVal.beq task_type (PyVal.str "add_study_session") then add_study_session now task st
  else if PyVal.beq task_type (PyVal.str "manage_deadlines") then manage_deadlines now task st
  else if PyVal.beq task_type (PyVal.str "adapt_schedule") then adapt_schedule now task st
  else if PyVal.beq task_type (PyVal.str "spaced_repetition") then
    schedule_spaced_repetition now task st
  else (handle_unknown_task task, st)

end Planner

example :
    (Planner.process_task "t0" [("type", PyVal.str "transmogrify")] ⟨[], [], []⟩).1 =
      { content := "Unknown task type: transmogrify"
        metadata := [("task", PyVal.dict [("type", PyVal.str "transmogrify")])]
        success := false
        error := Option.some ("Unsupported task type: transmogrify") } := rfl

example :
    (Planner.process_task "t0" [("type", PyVal.str "create_schedule")] ⟨[], [], []⟩).1 =
      { content := ""
        metadata := [("task", PyVal.dict [("type", PyVal.str "create_schedule")])]
        success := false
        error := Option.some "Student ID is required" } := rfl

/-- C5: for every task descriptor whose `"type"` tag is a string matching none
of the planner's six handled task types, `Planner.process_task` returns (it is
a total function, so it never raises) a failure envelope whose error string
contains the unrecognized tag, and the state is untouched.  The planner
handlers reference no backend at all (planner.py never calls
`process_message` or the LLM), so the number of backend invocations is
identically zero. -/
theorem claim_C5_unknown_tag_fails (now : String) (task : PyDict)
    (st : Planner.PlannerState) (tag : String)
    (htag : PyDict.getD task "type" (PyVal.str "unknown") = PyVal.str tag)
    (hna : ¬ tag ∈ (["create_schedule", "optimize_schedule", "add_study_session",
                     "manage_deadlines", "adapt_schedule",
                     "spaced_repetition"] : List String)) :
    Planner.process_task now task st =
      ({ content := "Unknown task type: " ++ tag
         metadata := [("task", PyVal.dict task)]
         success := false
         error := Option.some ("Unsupported task type: " ++ tag) }, st) ∧
    ∃ pre : String, "Unsupported task type: " ++ tag = pre ++ tag := by
  simp only [List.mem_cons, List.mem_singleton, not_or] at hna
  obtain ⟨h1, h2, h3, h4, h5, h6⟩ := hna
  refine ⟨?_, ⟨"Unsupported task type: ", rfl⟩⟩
  unfold Planner.process_task
  rw [htag]
  simp [PyVal.beq, h1, h2, h3, h4, h5, h6, handle_unknown_task, htag, PyVal.toText]

theorem claim_C5_unknown_tag_witness :
    Planner.process_task "t0" [("type", PyVal.str "fly_to_moon")] ⟨[], [], []⟩ =
      ({ content := "Unknown task type: fly_to_moon"
         metadata := [("task", PyVal.dict [("type", PyVal.str "fly_to_moon")])]
         success := false
         error := Option.some ("Unsupported task type: fly_to_moon") }, ⟨[], [], []⟩) ∧
    ∃ pre : String, "Unsupported task type: fly_to_moon" = pre ++ "fly_to_moon" :=
  claim_C5_unknown_tag_fails "t0" [("type", PyVal.str "fly_to_moon")] ⟨[], [], []⟩
    "fly_to_moon" rfl (by simp)

/-!
## AdvisorAgent (src/agents/advisor.py)

`_provide_guidance` is the only advisor handler whose helpers call
`self.process_message`; the backend-invocation counter and sleep log are
threaded through as a `Trace`.  All other helpers return canned values
(advisor.py lines 786-890).
-/

/-- The running backend effect: number of invocations so far and the sleep
log. -/
abbrev Trace := Nat × List Int

/-- `self.process_message(prompt)` inside an advisor/notewriter helper:
the retry loop of the base agent, continuing the global invocation counter
and sleep log (the prompt only feeds the opaque backend). -/
def pmAt (cfg : AgentCfg) (b : Backend) (tr : Trace) : Option AgentResponse × Trace :=
  let r := processAttempts cfg PyVal.none b (cfg.max_retries + 1).toNat 0 tr.1 tr.2
  (r.1, r.2)

/-- `len(v)` on a value statically known to be a container. -/
def pyLenTotal (v : PyVal) : Nat :=
  match v with
  | .str s => s.length
  | .list xs => xs.length
  | .dict d => d.length
  | _ => 0

/-- Python `repr` of a list of strings, for f-string interpolation of the
canned lists (string quoting elided, see the module conventions). -/
def listText (xs : List String) : String :=
  (PyVal.list (xs.map PyVal.str)).toText

namespace Advisor

/-- `GuidanceSession` dataclass (advisor.py lines 17-28). -/
structure GuidanceSession where
  session_id : String
  student_id : PyVal
  topic : PyVal
  challenge : PyVal
  guidance_provided : String
  strategies_suggested : List String
  follow_up_actions : List String
  session_date : String
  effectiveness_rating : Option Int := Option.none

/-- `SupportStrategy` dataclass (advisor.py lines 31-41); `category` receives
the task-supplied `strategy_type` in `_create_customized_strategy`. -/
structure SupportStrategy where
  strategy_id : String
  name : String
  description : String
  category : PyVal
  difficulty_level : String
  estimated_impact : String
  prerequisites : List String
  implementation_steps : List String

/-- The advisor's mutable per-agent state (advisor.py lines 64-67;
`self.support_strategies` is a constant, see `init_support_strategies`). -/
structure AdvisorState where
  guidance_sessions : List (PyVal × List GuidanceSession)
  student_profiles : List (PyVal × PyVal)
  progress_tracker : List (PyVal × PyVal)

/-- `AdvisorAgent._initialize_support_strategies` (advisor.py lines 714-763):
a fixed dictionary, never mutated. -/
def init_support_strategies : List (String × SupportStrategy) :=
  [("time_management",
    { strategy_id := "tm_001", name := "Pomodoro Technique"
      description := "Use focused work sessions with breaks"
      category := PyVal.str "time_management", difficulty_level := "easy"
      estimated_impact := "high", prerequisites := ["basic time awareness"]
      implementation_steps := ["Set a timer for 25 minutes", "Work on a single task",
                               "Take a 5-minute break", "Repeat cycle"] }),
   ("study_skills",
    { strategy_id := "ss_001", name := "Active Recall"
      description := "Test yourself on material instead of passive review"
      category := PyVal.str "academic", difficulty_level := "medium"
      estimated_impact := "high", prerequisites := ["basic understanding of material"]
      implementation_steps := ["Create practice questions", "Test yourself regularly",
                               "Review incorrect answers", "Space out practice sessions"] }),
   ("stress_management",
    { strategy_id := "sm_001", name := "Mindfulness Breathing"
      description := "Use breathing exercises to reduce stress"
      category := PyVal.str "emotional", difficulty_level := "easy"
      estimated_impact := "medium", prerequisites := ["willingness to practice"]
      implementation_steps := ["Find a quiet space", "Sit comfortably",
                               "Breathe deeply for 5 minutes", "Focus on breath"] })]

/-- `AdvisorAgent._analyze_challenge` (advisor.py lines 594-624): calls
`process_message`, ignores the response, returns a fixed analysis dict. -/
def analyze_challenge (cfg : AgentCfg) (b : Backend)
    (_challenge _topic _student_profile : PyVal) (tr : Trace) : PyVal × Trace :=
  let (_r, tr2) := pmAt cfg b tr
  (PyVal.dict
    [("root_cause", PyVal.str "academic difficulty"),
     ("impact_level", PyVal.str "moderate"),
     ("coping_mechanisms", PyVal.list [PyVal.str "avoidance", PyVal.str "procrastination"]),
     ("potential_solutions", PyVal.list [PyVal.str "tutoring", PyVal.str "study groups",
                                         PyVal.str "time management"]),
     ("support_level", PyVal.str "moderate")], tr2)

/-- `AdvisorAgent._generate_personalized_guidance` (advisor.py lines 626-648):
`response.content if response.success else <fallback>`; raises
`AttributeError` when `process_message` returned Python `None` (negative
retry configuration). -/
def generate_personalized_guidance (cfg : AgentCfg) (b : Backend)
    (_challenge _topic _analysis _student_profile _urgency_level : PyVal)
    (tr : Trace) : Except String String × Trace :=
  match pmAt cfg b tr with
  | (Option.some response, tr2) =>
      (Except.ok (if response.success then response.content
                  else "I understand you\x27re facing challenges. Let\x27s work together to find solutions."),
       tr2)
  | (Option.none, tr2) =>
      (Except.error "AttributeError: NoneType object has no attribute success", tr2)

/-- `AdvisorAgent._suggest_support_strategies` (advisor.py lines 650-672):
calls `process_message`, ignores the response, returns a fixed list. -/
def suggest_support_strategies (cfg : AgentCfg) (b : Backend)
    (_analysis _student_profile : PyVal) (tr : Trace) : List String × Trace :=
  let (_r, tr2) := pmAt cfg b tr
  (["Implement structured study schedule", "Seek peer study groups",
    "Utilize academic tutoring services", "Practice stress management techniques"], tr2)

/-- `AdvisorAgent._create_follow_up_actions` (advisor.py lines 674-685). -/
def create_follow_up_actions (_analysis : PyVal) (_strategies : List String) :
    List String :=
  ["Schedule weekly check-ins", "Track study time and progress",
   "Monitor stress levels", "Evaluate strategy effectiveness"]

/-- `AdvisorAgent._compile_guidance_response` (advisor.py lines 687-712). -/
def compile_guidance_response (guidance : String) (strategies follow_up : List String)
    (urgency_level : PyVal) : String :=
  let r := "\n🎯 Personalized Guidance\n\n" ++ guidance ++
    "\n\n📋 Recommended Strategies:\n"
  let r := r ++ String.join (strategies.enum.map
    (fun p => toString (p.fst + 1) ++ ". " ++ p.snd ++ "\n"))
  let r := r ++ "\n📅 Follow-up Actions:\n"
  let r := r ++ String.join (follow_up.enum.map
    (fun p => toString (p.fst + 1) ++ ". " ++ p.snd ++ "\n"))
  if PyVal.beq urgency_level (PyVal.str "high") ||
     PyVal.beq urgency_level (PyVal.str "critical") then
    r ++ "\n⚠️ This requires immediate attention. Please prioritize these recommendations."
  else r

/-- `AdvisorAgent._provide_guidance` (advisor.py lines 103-192). -/
def provide_guidance (cfg : AgentCfg) (b : Backend) (now : String) (task : PyDict)
    (st : AdvisorState) (tr : Trace) : AgentResponse × AdvisorState × Trace :=
  let student_id := PyDict.getD task "student_id" (PyVal.str "")
  let topic := PyDict.getD task "topic" (PyVal.str "")
  let challenge := PyDict.getD task "challenge" (PyVal.str "")
  let urgency_level := PyDict.getD task "urgency_level" (PyVal.str "normal")
  if !student_id.truthy || !challenge.truthy then
    ({ content := ""
       metadata := [("task", PyVal.dict task)]
       success := false
       error := Option.some "Student ID and challenge are required" }, st, tr)
  else
    let student_profile :=
      match pyAssocGet st.student_profiles student_id with
      | Option.some p => p
      | Option.none => PyVal.dict []
    let (challenge_analysis, tr) := analyze_challenge cfg b challenge topic student_profile tr
    match generate_personalized_guidance cfg b challenge topic challenge_analysis
      student_profile urgency_level tr with
    | (Except.error e, tr) =>
        ({ content := ""
           metadata := [("student_id", student_id), ("topic", topic)]
           success := false
           error := Option.some e }, st, tr)
    | (Except.ok guidance_content, tr) =>
        let (strategies, tr) :=
          suggest_support_strategies cfg b challenge_analysis student_profile tr
        let follow_up_actions := create_follow_up_actions challenge_analysis strategies
        let session_id := student_id.toText ++ "_" ++ now
        let gsession : GuidanceSession :=
          { session_id := session_id, student_id := student_id, topic := topic
            challenge := challenge, guidance_provided := guidance_content
            strategies_suggested := strategies, follow_up_actions := follow_up_actions
            session_date := now }
        let sessions :=
          (match pyAssocGet st.guidance_sessions student_id with
           | Option.some l => l
           | Option.none => []) ++ [gsession]
        let st2 := { st with guidance_sessions :=
          (pyAssocSet st.guidance_sessions student_id sessions) }
        let response_content :=
          compile_guidance_response guidance_content strategies follow_up_actions
            urgency_level
        ({ content := response_content
           metadata := [("student_id", student_id), ("topic", topic),
                        ("challenge", challenge), ("urgency_level", urgency_level),
                        ("session_id", PyVal.str session_id),
                        ("strategies_count", PyVal.int strategies.length),
                        ("follow_up_actions_count", PyVal.int follow_up_actions.length)]
           success := true }, st2, tr)

/-- `AdvisorAgent._analyze_challenge_area` (advisor.py lines 787-788). -/
def analyze_challenge_area (challenge_area _student_profile : PyVal) : PyVal :=
  PyVal.dict [("area", challenge_area), ("complexity", PyVal.str "medium")]

/-- `AdvisorAgent._create_customized_strategy` (advisor.py lines 790-800). -/
def create_customized_strategy (_challenge_area _analysis _profile : PyVal)
    (strategy_type : PyVal) : SupportStrategy :=
  { strategy_id := "custom_001", name := "Custom Strategy"
    description := "Tailored approach for the student"
    category := strategy_type, difficulty_level := "medium"
    estimated_impact := "high", prerequisites := []
    implementation_steps := ["Step 1", "Step 2", "Step 3"] }

/-- `AdvisorAgent._create_implementation_plan` (advisor.py lines 802-803). -/
def create_implementation_plan (_strategy : SupportStrategy) (_profile : PyVal) : PyVal :=
  PyVal.dict [("plan", PyVal.str "Implementation plan"), ("timeline", PyVal.str "2 weeks")]

/-- `AdvisorAgent._format_strategy_response` (advisor.py lines 808-809). -/
def format_strategy_response (strategy : SupportStrategy) (plan : PyVal) : String :=
  "Strategy: " ++ strategy.name ++ "\nPlan: " ++ plan.toText

/-- `AdvisorAgent._develop_strategy` (advisor.py lines 194-257);
`_setup_progress_tracking` is a no-op (line 805-806). -/
def develop_strategy (task : PyDict) (st : AdvisorState) :
    AgentResponse × AdvisorState :=
  let student_id := PyDict.getD task "student_id" (PyVal.str "")
  let challenge_area := PyDict.getD task "challenge_area" (PyVal.str "")
  let strategy_type := PyDict.getD task "strategy_type" (PyVal.str "comprehensive")
  if !student_id.truthy || !challenge_area.truthy then
    ({ content := ""
       metadata := [("task", PyVal.dict task)]
       success := false
       error := Option.some "Student ID and challenge area are required" }, st)
  else
    let student_profile :=
      match pyAssocGet st.student_profiles student_id with
      | Option.some p => p
      | Option.none => PyVal.dict []
    let challenge_analysis := analyze_challenge_area challenge_area student_profile
    let strategy := create_customized_strategy challenge_area challenge_analysis
      student_profile strategy_type
    let implementation_plan := create_implementation_plan strategy student_profile
    ({ content := format_strategy_response strategy implementation_plan
       metadata := [("student_id", student_id), ("challenge_area", challenge_area),
                    ("strategy_type", strategy_type),
                    ("strategy_id", PyVal.str strategy.strategy_id),
                    ("estimated_impact", PyVal.str strategy.estimated_impact),
                    ("implementation_steps", PyVal.int strategy.implementation_steps.length)]
       success := true }, st)

/-- `AdvisorAgent._analyze_progress_trends` (advisor.py lines 814-815). -/
def analyze_progress_trends (_data : PyVal) (_metrics : PyVal) : PyDict :=
  [("trends", PyVal.str "analysis"), ("overall_score", PyVal.int 75)]

/-- `AdvisorAgent._compile_progress_report` (advisor.py lines 829-830). -/
def compile_progress_report (report : String) (areas steps : List String) : String :=
  "Report: " ++ report ++ "\nAreas: " ++ listText areas ++ "\nSteps: " ++ listText steps

/-- `AdvisorAgent._assess_progress` (advisor.py lines 259-325); the canned
helpers are advisor.py lines 811-827, `_update_progress_tracker` is a no-op. -/
def assess_progress (task : PyDict) (st : AdvisorState) :
    AgentResponse × AdvisorState :=
  let student_id := PyDict.getD task "student_id" (PyVal.str "")
  let assessment_period := PyDict.getD task "assessment_period" (PyVal.str "weekly")
  let metrics := PyDict.getD task "metrics"
    (PyVal.list [PyVal.str "academic", PyVal.str "engagement", PyVal.str "wellbeing"])
  if !student_id.truthy then
    ({ content := ""
       metadata := [("task", PyVal.dict task)]
       success := false
       error := Option.some "Student ID is required" }, st)
  else
    let progress_data := PyVal.dict [("data", PyVal.str "progress data")]
    let progress_analysis := analyze_progress_trends progress_data metrics
    let progress_report := "Progress report content"
    let improvement_areas := ["Area 1", "Area 2"]
    let next_steps := ["Step 1", "Step 2"]
    ({ content := compile_progress_report progress_report improvement_areas next_steps
       metadata := [("student_id", student_id),
                    ("assessment_period", assessment_period),
                    ("metrics", metrics),
                    ("progress_score", PyDict.getD progress_analysis "overall_score" (PyVal.int 0)),
                    ("improvement_areas_count", PyVal.int improvement_areas.length)]
       success := true }, st)

/-- `AdvisorAgent._compile_motivation_response` (advisor.py lines 841-842). -/
def compile_motivation_response (message : String) (actions strategies : List String) :
    String :=
  "Message: " ++ message ++ "\nActions: " ++ listText actions ++
    "\nStrategies: " ++ listText strategies

/-- `AdvisorAgent._offer_motivation` (advisor.py lines 327-391); canned
helpers are advisor.py lines 832-839. -/
def offer_motivation (task : PyDict) (st : AdvisorState) :
    AgentResponse × AdvisorState :=
  let student_id := PyDict.getD task "student_id" (PyVal.str "")
  let motivation_context := PyDict.getD task "context" (PyVal.str "")
  let current_mood := PyDict.getD task "current_mood" (PyVal.str "neutral")
  if !student_id.truthy then
    ({ content := ""
       metadata := [("task", PyVal.dict task)]
       success := false
       error := Option.some "Student ID is required" }, st)
  else
    let motivational_message := "You\x27re doing great! Keep up the excellent work!"
    let positive_actions := ["Action 1", "Action 2"]
    let encouragement_strategies := ["Strategy 1", "Strategy 2"]
    ({ content := compile_motivation_response motivational_message positive_actions
         encouragement_strategies
       metadata := [("student_id", student_id),
                    ("motivation_context", motivation_context),
                    ("current_mood", current_mood),
                    ("positive_actions_count", PyVal.int positive_actions.length)]
       success := true }, st)

/-- `AdvisorAgent._compile_intervention_plan` (advisor.py lines 856-857). -/
def compile_intervention_plan (plan : PyVal) (resources : List String)
    (monitoring : PyVal) (_severity : PyVal) : String :=
  "Plan: " ++ plan.toText ++ "\nResources: " ++ listText resources ++
    "\nMonitoring: " ++ monitoring.toText

/-- `AdvisorAgent._create_intervention_plan` (advisor.py lines 393-458);
canned helpers are advisor.py lines 844-854. -/
def create_intervention_plan (task : PyDict) (st : AdvisorState) :
    AgentResponse × AdvisorState :=
  let student_id := PyDict.getD task "student_id" (PyVal.str "")
  let crisis_type := PyDict.getD task "crisis_type" (PyVal.str "")
  let severity_level := PyDict.getD task "severity_level" (PyVal.str "moderate")
  if !student_id.truthy || !crisis_type.truthy then
    ({ content := ""
       metadata := [("task", PyVal.dict task)]
       success := false
       error := Option.some "Student ID and crisis type are required" }, st)
  else
    let _crisis_assessment := PyVal.dict [("type", crisis_type), ("severity", severity_level)]
    let intervention_plan : PyDict :=
      [("plan", PyVal.str "intervention plan"),
       ("steps", PyVal.list [PyVal.str "Step 1", PyVal.str "Step 2"])]
    let support_resources := ["Resource 1", "Resource 2"]
    let monitoring_plan := PyVal.dict [("monitoring", PyVal.str "plan")]
    ({ content := compile_intervention_plan (PyVal.dict intervention_plan)
         support_resources monitoring_plan severity_level
       metadata := [("student_id", student_id), ("crisis_type", crisis_type),
                    ("severity_level", severity_level),
                    ("intervention_steps",
                     PyVal.int (pyLenTotal (PyDict.getD intervention_plan "steps" (PyVal.list [])))),
                    ("support_resources_count", PyVal.int support_resources.length)]
       success := true }, st)

/-- `AdvisorAgent._compile_goal_setting_response` (advisor.py lines 874-875). -/
def compile_goal_setting_response (goals plans : List PyVal) (tracking : PyVal) : String :=
  "Goals: " ++ (PyVal.list goals).toText ++ "\nPlans: " ++ (PyVal.list plans).toText ++
    "\nTracking: " ++ tracking.toText

/-- `AdvisorAgent._facilitate_goal_setting` (advisor.py lines 460-525);
canned helpers are advisor.py lines 859-872. -/
def facilitate_goal_setting (task : PyDict) (st : AdvisorState) :
    AgentResponse × AdvisorState :=
  let student_id := PyDict.getD task "student_id" (PyVal.str "")
  let goal_area := PyDict.getD task "goal_area" (PyVal.str "")
  let timeframe := PyDict.getD task "timeframe" (PyVal.str "semester")
  if !student_id.truthy || !goal_area.truthy then
    ({ content := ""
       metadata := [("task", PyVal.dict task)]
       success := false
       error := Option.some "Student ID and goal area are required" }, st)
  else
    let smart_goals := [PyVal.dict [("goal", PyVal.str "SMART goal 1")],
                        PyVal.dict [("goal", PyVal.str "SMART goal 2")]]
    let action_plans := [PyVal.dict [("plan", PyVal.str "Action plan 1")],
                         PyVal.dict [("plan", PyVal.str "Action plan 2")]]
    let tracking_system := PyVal.dict [("tracking", PyVal.str "system")]
    ({ content := compile_goal_setting_response smart_goals action_plans tracking_system
       metadata := [("student_id", student_id), ("goal_area", goal_area),
                    ("timeframe", timeframe),
                    ("goals_created", PyVal.int smart_goals.length),
                    ("action_plans_count", PyVal.int action_plans.length)]
       success := true }, st)

/-- `AdvisorAgent._compile_stress_assessment_response` (advisor.py lines
889-890). -/
def compile_stress_assessment_response (assessment : PyVal) (sources strategies : List String)
    (plan : PyVal) : String :=
  "Assessment: " ++ assessment.toText ++ "\nSources: " ++ listText sources ++
    "\nStrategies: " ++ listText strategies ++ "\nPlan: " ++ plan.toText

/-- `AdvisorAgent._assess_stress_levels` (advisor.py lines 527-592); canned
helpers are advisor.py lines 877-887. -/
def assess_stress_levels (task : PyDict) (st : AdvisorState) :
    AgentResponse × AdvisorState :=
  let student_id := PyDict.getD task "student_id" (PyVal.str "")
  let _stress_indicators := PyDict.getD task "stress_indicators" (PyVal.list [])
  let _current_situation := PyDict.getD task "current_situation" (PyVal.str "")
  if !student_id.truthy then
    ({ content := ""
       metadata := [("task", PyVal.dict task)]
       success := false
       error := Option.some "Student ID is required" }, st)
  else
    let stress_assessment : PyDict :=
      [("level", PyVal.str "moderate"),
       ("sources", PyVal.list [PyVal.str "academic", PyVal.str "personal"])]
    let stress_sources := ["Source 1", "Source 2"]
    let coping_strategies := ["Strategy 1", "Strategy 2"]
    let management_plan := PyVal.dict [("plan", PyVal.str "stress management")]
    ({ content := compile_stress_assessment_response (PyVal.dict stress_assessment)
         stress_sources coping_strategies management_plan
       metadata := [("student_id", student_id),
                    ("stress_level", PyDict.getD stress_assessment "level" (PyVal.str "unknown")),
                    ("stress_sources_count", PyVal.int stress_sources.length),
                    ("coping_strategies_count", PyVal.int coping_strategies.length)]
       success := true }, st)

/-- `AdvisorAgent.process_task` (advisor.py lines 69-101): dispatch on
`task.get("type", "unknown")`.  Only the `provide_guidance` branch touches
the backend; every other branch leaves the trace unchanged. -/
def process_task (cfg : AgentCfg) (b : Backend) (now : String) (task : PyDict)
    (st : AdvisorState) (tr : Trace) : AgentResponse × AdvisorState × Trace :=
  let task_type := PyDict.getD task "type" (PyVal.str "unknown")
  if PyVal.beq task_type (PyVal.str "provide_guidance") then
    provide_guidance cfg b now task st tr
  else if PyVal.beq task_type (PyVal.str "develop_strategy") then
    let (r, st2) := develop_strategy task st
    (r, st2, tr)
  else if PyVal.beq task_type (PyVal.str "assess_progress") then
    let (r, st2) := assess_progress task st
    (r, st2, tr)
  else if PyVal.beq task_type (PyVal.str "offer_motivation") then
    let (r, st2) := offer_motivation task st
    (r, st2, tr)
  else if PyVal.beq task_type (PyVal.str "intervention_plan") then
    let (r, st2) := create_intervention_plan task st
    (r, st2, tr)
  else if PyVal.beq task_type (PyVal.str "goal_setting") then
    let (r, st2) := facilitate_goal_setting task st
    (r, st2, tr)
  else if PyVal.beq task_type (PyVal.str "stress_assessment") then
    let (r, st2) := assess_stress_levels task st
    (r, st2, tr)
  else
    (handle_unknown_task task, st, tr)

end Advisor

example :
    (Advisor.process_task ⟨"Advisor", 3, 5⟩ (fun _ => Except.ok "text") "t0"
      [("type", PyVal.str "provide_guidance")] ⟨[], [], []⟩ (0, [])).1 =
      { content := ""
        metadata := [("task", PyVal.dict [("type", PyVal.str "provide_guidance")])]
        success := false
        error := Option.some "Student ID and challenge are required" } := rfl

example :
    (Advisor.process_task ⟨"Advisor", 3, 5⟩ (fun _ => Except.ok "text") "t0"
      [("type", PyVal.str "provide_guidance"), ("student_id", PyVal.str "s1"),
       ("challenge", PyVal.str "calculus")] ⟨[], [], []⟩ (0, [])).2.2 = (3, []) := rfl

/-- C6: a task descriptor missing a required field of its handler — here the
two handlers the claim names: `create_schedule` without `student_id`
(planner.py lines 102-114) and `provide_guidance` without `student_id` or
`challenge` (advisor.py lines 109-120) — yields a failure envelope
synchronously: the planner embedding involves no backend at all, and the
advisor branch returns with the backend trace unchanged, i.e. zero backend
invocations and zero retry sleeps. -/
theorem claim_C6_validation_before_backend
    (now : String) (task1 : PyDict) (st1 : Planner.PlannerState)
    (cfg : AgentCfg) (b : Backend) (task2 : PyDict) (st2 : Advisor.AdvisorState)
    (tr : Trace)
    (htype1 : PyDict.getD task1 "type" (PyVal.str "unknown") = PyVal.str "create_schedule")
    (hmiss1 : task1.lookup "student_id" = Option.none)
    (htype2 : PyDict.getD task2 "type" (PyVal.str "unknown") = PyVal.str "provide_guidance")
    (hmiss2 : task2.lookup "student_id" = Option.none ∨
              task2.lookup "challenge" = Option.none) :
    Planner.process_task now task1 st1 =
      ({ content := ""
         metadata := [("task", PyVal.dict task1)]
         success := false
         error := Option.some "Student ID is required" }, st1) ∧
    Advisor.process_task cfg b now task2 st2 tr =
      ({ content := ""
         metadata := [("task", PyVal.dict task2)]
         success := false
         error := Option.some "Student ID and challenge are required" }, st2, tr) := by
  constructor
  · unfold Planner.process_task
    rw [htype1]
    simp only [PyVal.beq, beq_self_eq_true, if_true]
    unfold Planner.create_schedule
    simp [PyDict.get, hmiss1, PyVal.truthy]
  · unfold Advisor.process_task
    rw [htype2]
    simp only [PyVal.beq, beq_self_eq_true, if_true]
    unfold Advisor.provide_guidance
    rcases hmiss2 with h | h <;> simp [PyDict.getD, h, PyVal.truthy]

theorem claim_C6_validation_witness :
    Planner.process_task "t0" [("type", PyVal.str "create_schedule")] ⟨[], [], []⟩ =
      ({ content := ""
         metadata := [("task", PyVal.dict [("type", PyVal.str "create_schedule")])]
         success := false
         error := Option.some "Student ID is required" }, ⟨[], [], []⟩) ∧
    Advisor.process_task ⟨"Advisor", 3, 5⟩ (fun _ => Except.ok "text") "t0"
        [("type", PyVal.str "provide_guidance")] ⟨[], [], []⟩ (0, []) =
      ({ content := ""
         metadata := [("task", PyVal.dict [("type", PyVal.str "provide_guidance")])]
         success := false
         error := Option.some "Student ID and challenge are required" },
       ⟨[], [], []⟩, (0, [])) :=
  claim_C6_validation_before_backend "t0" [("type", PyVal.str "create_schedule")]
    ⟨[], [], []⟩ ⟨"Advisor", 3, 5⟩ (fun _ => Except.ok "text")
    [("type", PyVal.str "provide_guidance")] ⟨[], [], []⟩ (0, [])
    rfl rfl rfl (Or.inl rfl)

/-!
## NotewriterAgent (src/agents/notewriter.py)
-/

/-- Python `str.title()` (capitalize each alphabetic run). -/
def titleCase (s : String) : String :=
  (s.toList.foldl
    (fun acc c =>
      if c.isAlpha then
        (true, acc.snd.push (if acc.fst then c.toLower else c.toUpper))
      else
        (false, acc.snd.push c))
    ((false, "") : Bool × String)).snd

/-- `v.title()` on an arbitrary value. -/
def pyTitle (v : PyVal) : Except String String :=
  match v with
  | .str s => Except.ok (titleCase s)
  | _ => Except.error "AttributeError: object has no attribute title"

/-- `v.replace(old, new)` on an arbitrary value. -/
def pyReplace (v : PyVal) (old new : String) : Except String String :=
  match v with
  | .str s => Except.ok (s.replace old new)
  | _ => Except.error "AttributeError: object has no attribute replace"

/-- `v.split()` with no separator: split on whitespace runs, dropping empty
pieces. -/
def pySplit (v : PyVal) : Except String (List String) :=
  match v with
  | .str s => Except.ok ((s.split Char.isWhitespace).filter (fun w => w ≠ ""))
  | _ => Except.error "AttributeError: object has no attribute split"

/-- `v * n` for an int literal `n` (Python also repeats strings and lists). -/
def pyMulInt (v : PyVal) (n : Int) : Except String PyVal :=
  match v with
  | .int m => Except.ok (PyVal.int (m * n))
  | .float q => Except.ok (PyVal.float (q * (n : Rat)))
  | .bool b => Except.ok (PyVal.int ((if b then (1 : Int) else 0) * n))
  | .str s => Except.ok (PyVal.str (String.join (List.replicate n.toNat s)))
  | .list xs => Except.ok (PyVal.list ((List.replicate n.toNat xs).flatten))
  | _ => Except.error "TypeError: unsupported operand type for multiplication"

/-- `v // n` for an int literal `n` (floor division; float operands stay
float). -/
def pyFloorDivInt (v : PyVal) (n : Int) : Except String PyVal :=
  match v with
  | .int m => Except.ok (PyVal.int (Int.fdiv m n))
  | .float q => Except.ok (PyVal.float ((Int.floor (q / (n : Rat)) : Int) : Rat))
  | .bool b => Except.ok (PyVal.int (Int.fdiv (if b then 1 else 0) n))
  | _ => Except.error "TypeError: unsupported operand type for floor division"

/-- The shared shape of the notewriter LLM helpers (notewriter.py lines
665-846): build a prompt (absorbed by the opaque backend), call
`process_message`, and return `response.content if response.success else
fallback`; raises `AttributeError` when `process_message` returned Python
`None`. -/
def pmTextOr (cfg : AgentCfg) (b : Backend) (fallback : String) (tr : Trace) :
    Except String String × Trace :=
  match pmAt cfg b tr with
  | (Option.some response, tr2) =>
      (Except.ok (if response.success then response.content else fallback), tr2)
  | (Option.none, tr2) =>
      (Except.error "AttributeError: NoneType object has no attribute success", tr2)

namespace Notewriter

/-- `StudyMaterial` dataclass (notewriter.py lines 17-28). -/
structure StudyMaterial where
  title : String
  content : String
  material_type : String
  subject : PyVal
  learning_style : PyVal
  difficulty_level : String
  estimated_duration : PyVal
  tags : List String
  created_at : String

/-- `ContentAnalysis` dataclass (notewriter.py lines 31-39);
`estimated_study_time` is an int for easy content and a float otherwise
(notewriter.py lines 866-876). -/
structure ContentAnalysis where
  key_concepts : List String
  difficulty_level : String
  estimated_study_time : PyVal
  prerequisites : List String
  learning_objectives : List String
  suggested_activities : List String

/-- The notewriter's mutable per-agent state (notewriter.py lines 62-63). -/
structure NotewriterState where
  material_database : List (PyVal × List StudyMaterial)
  content_analyses : List (String × ContentAnalysis)

/-- `self.learning_style_templates` (notewriter.py lines 64-85): a constant
dict, read only through `.get(style, {})` while building prompts. -/
def learning_style_templates : PyDict :=
  [("visual", PyVal.dict
     [("preferred_formats", PyVal.list [PyVal.str "diagrams", PyVal.str "mind_maps",
        PyVal.str "infographics", PyVal.str "charts"]),
      ("content_structure", PyVal.str "hierarchical"),
      ("emphasis", PyVal.str "visual_organization")]),
   ("auditory", PyVal.dict
     [("preferred_formats", PyVal.list [PyVal.str "audio_summaries",
        PyVal.str "discussions", PyVal.str "explanations"]),
      ("content_structure", PyVal.str "narrative"),
      ("emphasis", PyVal.str "verbal_explanation")]),
   ("kinesthetic", PyVal.dict
     [("preferred_formats", PyVal.list [PyVal.str "interactive_exercises",
        PyVal.str "hands_on_activities", PyVal.str "simulations"]),
      ("content_structure", PyVal.str "experiential"),
      ("emphasis", PyVal.str "practical_application")]),
   ("reading", PyVal.dict
     [("preferred_formats", PyVal.list [PyVal.str "detailed_notes",
        PyVal.str "comprehensive_texts", PyVal.str "reading_lists"]),
      ("content_structure", PyVal.str "detailed"),
      ("emphasis", PyVal.str "comprehensive_coverage")])]

/-- `NotewriterAgent._extract_key_concepts` (notewriter.py lines 848-853):
`list(set(words[:10]))`; the iteration order of a Python set is unspecified,
embedded as first-occurrence deduplication (no claim reads this list). -/
def extract_key_concepts (content : PyVal) : Except String (List String) := do
  let words ← pySplit content
  Except.ok (words.take 10).eraseDups

/-- `NotewriterAgent._assess_difficulty` (notewriter.py lines 855-864). -/
def assess_difficulty (content : PyVal) : Except String String := do
  let words ← pySplit content
  Except.ok (if words.length < 100 then "easy"
             else if words.length < 500 then "medium"
             else "hard")

/-- `NotewriterAgent._estimate_study_time` (notewriter.py lines 866-876):
`base_time * 1.5` produces a float for medium difficulty. -/
def estimate_study_time (content : PyVal) (difficulty : String) :
    Except String PyVal := do
  let words ← pySplit content
  let base : Nat := words.length / 50
  Except.ok (if difficulty == "easy" then PyVal.int base
             else if difficulty == "medium" then PyVal.float ((base : Rat) * (3 / 2))
             else PyVal.int (base * 2))

/-- `NotewriterAgent._identify_prerequisites` (notewriter.py lines 878-881). -/
def identify_prerequisites (_content subject : PyVal) : List String :=
  ["Basic " ++ subject.toText ++ " knowledge"]

/-- `NotewriterAgent._define_learning_objectives` (notewriter.py lines
883-890). -/
def define_learning_objectives (_content subject : PyVal) : List String :=
  ["Understand key concepts in " ++ subject.toText,
   "Apply " ++ subject.toText ++ " principles",
   "Analyze " ++ subject.toText ++ " problems"]

/-- `NotewriterAgent._suggest_activities` (notewriter.py lines 892-912). -/
def suggest_activities (_content _subject : PyVal) (difficulty : String) :
    List String :=
  ["Review key concepts", "Practice with examples", "Create summary notes"] ++
    (if difficulty == "hard" then
      ["Break down complex topics", "Seek additional resources", "Practice with peers"]
     else [])

/-- `NotewriterAgent._perform_content_analysis` (notewriter.py lines
629-663). -/
def perform_content_analysis (content subject : PyVal) :
    Except String ContentAnalysis := do
  let key_concepts ← extract_key_concepts content
  let difficulty_level ← assess_difficulty content
  let estimated_study_time ← estimate_study_time content difficulty_level
  Except.ok
    { key_concepts := key_concepts
      difficulty_level := difficulty_level
      estimated_study_time := estimated_study_time
      prerequisites := identify_prerequisites content subject
      learning_objectives := define_learning_objectives content subject
      suggested_activities := suggest_activities content subject difficulty_level }

/-- Structural encoding of a `ContentAnalysis` object for envelope metadata. -/
def ContentAnalysis.toPy (a : ContentAnalysis) : PyVal :=
  PyVal.dict
    [("key_concepts", PyVal.list (a.key_concepts.map PyVal.str)),
     ("difficulty_level", PyVal.str a.difficulty_level),
     ("estimated_study_time", a.estimated_study_time),
     ("prerequisites", PyVal.list (a.prerequisites.map PyVal.str)),
     ("learning_objectives", PyVal.list (a.learning_objectives.map PyVal.str)),
     ("suggested_activities", PyVal.list (a.suggested_activities.map PyVal.str))]

/-- `NotewriterAgent._generate_analysis_summary` (notewriter.py lines
914-926); the source's emoji literals are mojibake-encoded in the repository
and no claim reads this text. -/
def generate_analysis_summary (a : ContentAnalysis) : String :=
  ("\n📊 Content Analysis Summary\n\n🎯 Key Concepts: " ++
    String.intercalate ", " (a.key_concepts.take 5) ++
    "\n📈 Difficulty Level: " ++ titleCase a.difficulty_level ++
    "\n⏱️ Estimated Study Time: " ++ a.estimated_study_time.toText ++ " minutes" ++
    "\n📚 Prerequisites: " ++ String.intercalate ", " a.prerequisites ++
    "\n🎓 Learning Objectives: " ++ String.intercalate ", " (a.learning_objectives.take 3) ++
    "\n🔧 Suggested Activities: " ++ String.intercalate ", " (a.suggested_activities.take 3) ++
    "\n        ").trim

/-- The `material` sub-dict placed in success metadata (e.g. notewriter.py
lines 226-230). -/
def materialMeta (m : StudyMaterial) : PyVal :=
  PyVal.dict [("title", PyVal.str m.title), ("type", PyVal.str m.material_type),
              ("duration", m.estimated_duration)]

/-- Append a material to `self.material_database[student_id]` (e.g.
notewriter.py lines 216-218). -/
def storeMaterial (st : NotewriterState) (student_id : PyVal) (m : StudyMaterial) :
    NotewriterState :=
  let existing :=
    match pyAssocGet st.material_database student_id with
    | Option.some l => l
    | Option.none => []
  { st with material_database := (pyAssocSet st.material_database student_id (existing ++ [m])) }

/-- `NotewriterAgent._analyze_content` (notewriter.py lines 121-172): no
backend call anywhere on this path. -/
def analyze_content (now : String) (task : PyDict) (st : NotewriterState) :
    AgentResponse × NotewriterState :=
  let content := PyDict.getD task "content" (PyVal.str "")
  let subject := PyDict.getD task "subject" (PyVal.str "")
  let student_id := PyDict.getD task "student_id" (PyVal.str "")
  if !content.truthy then
    ({ content := ""
       metadata := [("task", PyVal.dict task)]
       success := false
       error := Option.some "Content is required for analysis" }, st)
  else
    match perform_content_analysis content subject with
    | Except.error e =>
        ({ content := ""
           metadata := [("student_id", student_id), ("subject", subject)]
           success := false
           error := Option.some e }, st)
    | Except.ok analysis =>
        let content_key := student_id.toText ++ "_" ++ subject.toText ++ "_" ++ now
        let st2 := { st with content_analyses :=
          (st.content_analyses ++ [(content_key, analysis)]) }
        ({ content := generate_analysis_summary analysis
           metadata := [("student_id", student_id), ("subject", subject),
                        ("analysis", analysis.toPy),
                        ("content_key", PyVal.str content_key)]
           success := true }, st2)

/-- `NotewriterAgent._generate_notes` (notewriter.py lines 174-247);
`_create_style_specific_notes` (lines 665-691) is a `pmTextOr` with fallback
`"Failed to generate notes"`. -/
def generate_notes (cfg : AgentCfg) (b : Backend) (now : String) (task : PyDict)
    (st : NotewriterState) (tr : Trace) : AgentResponse × NotewriterState × Trace :=
  let content := PyDict.getD task "content" (PyVal.str "")
  let subject := PyDict.getD task "subject" (PyVal.str "")
  let learning_style := PyDict.getD task "learning_style" (PyVal.str "visual")
  let student_id := PyDict.getD task "student_id" (PyVal.str "")
  if !content.truthy || !subject.truthy then
    ({ content := ""
       metadata := [("task", PyVal.dict task)]
       success := false
       error := Option.some "Content and subject are required" }, st, tr)
  else
    match perform_content_analysis content subject with
    | Except.error e =>
        ({ content := ""
           metadata := [("student_id", student_id), ("subject", subject)]
           success := false
           error := Option.some e }, st, tr)
    | Except.ok analysis =>
        match pmTextOr cfg b "Failed to generate notes" tr with
        | (Except.error e, tr2) =>
            ({ content := ""
               metadata := [("student_id", student_id), ("subject", subject)]
               success := false
               error := Option.some e }, st, tr2)
        | (Except.ok notes_content, tr2) =>
            let material : StudyMaterial :=
              { title := subject.toText ++ " Notes", content := notes_content
                material_type := "notes", subject := subject
                learning_style := learning_style
                difficulty_level := analysis.difficulty_level
                estimated_duration := analysis.estimated_study_time
                tags := analysis.key_concepts, created_at := now }
            ({ content := notes_content
               metadata := [("student_id", student_id), ("subject", subject),
                            ("learning_style", learning_style),
                            ("material", materialMeta material)]
               success := true }, storeMaterial st student_id material, tr2)

/-- `NotewriterAgent._create_summary` (notewriter.py lines 249-325).  The
three summary helpers (lines 693-749) share the `pmTextOr` shape with the
same fallback text, so the `summary_type` dispatch collapses; `summary_type`
only resurfaces in the material title via `.title()`, which raises on
non-string values. -/
def create_summary (cfg : AgentCfg) (b : Backend) (now : String) (task : PyDict)
    (st : NotewriterState) (tr : Trace) : AgentResponse × NotewriterState × Trace :=
  let content := PyDict.getD task "content" (PyVal.str "")
  let subject := PyDict.getD task "subject" (PyVal.str "")
  let summary_type := PyDict.getD task "summary_type" (PyVal.str "comprehensive")
  let student_id := PyDict.getD task "student_id" (PyVal.str "")
  if !content.truthy || !subject.truthy then
    ({ content := ""
       metadata := [("task", PyVal.dict task)]
       success := false
       error := Option.some "Content and subject are required" }, st, tr)
  else
    match perform_content_analysis content subject with
    | Except.error e =>
        ({ content := ""
           metadata := [("student_id", student_id), ("subject", subject)]
           success := false
           error := Option.some e }, st, tr)
    | Except.ok analysis =>
        match pmTextOr cfg b "Failed to generate summary" tr with
        | (Except.error e, tr2) =>
            ({ content := ""
               metadata := [("student_id", student_id), ("subject", subject)]
               success := false
               error := Option.some e }, st, tr2)
        | (Except.ok summary_content, tr2) =>
            match (do
              let tword ← pyTitle summary_type
              let dur ← pyFloorDivInt analysis.estimated_study_time 2
              Except.ok (tword, dur)) with
            | Except.error e =>
                ({ content := ""
                   metadata := [("student_id", student_id), ("subject", subject)]
                   success := false
                   error := Option.some e }, st, tr2)
            | Except.ok (tword, dur) =>
                let material : StudyMaterial :=
                  { title := subject.toText ++ " " ++ tword ++ " Summary"
                    content := summary_content
                    material_type := "summary", subject := subject
                    learning_style := PyVal.str "mixed"
                    difficulty_level := analysis.difficulty_level
                    estimated_duration := dur
                    tags := analysis.key_concepts, created_at := now }
                ({ content := summary_content
                   metadata := [("student_id", student_id), ("subject", subject),
                                ("summary_type", summary_type),
                                ("material", materialMeta material)]
                   success := true }, storeMaterial st student_id material, tr2)

/-- `NotewriterAgent._generate_quiz` (notewriter.py lines 327-402);
`_create_quiz_questions` (lines 751-771) is a `pmTextOr` with fallback
`"Failed to generate quiz"`; `num_questions * 2` raises on non-numeric,
non-sequence values. -/
def generate_quiz (cfg : AgentCfg) (b : Backend) (now : String) (task : PyDict)
    (st : NotewriterState) (tr : Trace) : AgentResponse × NotewriterState × Trace :=
  let content := PyDict.getD task "content" (PyVal.str "")
  let subject := PyDict.getD task "subject" (PyVal.str "")
  let question_types := PyDict.getD task "question_types"
    (PyVal.list [PyVal.str "multiple_choice", PyVal.str "true_false"])
  let num_questions := PyDict.getD task "num_questions" (PyVal.int 10)
  let student_id := PyDict.getD task "student_id" (PyVal.str "")
  if !content.truthy || !subject.truthy then
    ({ content := ""
       metadata := [("task", PyVal.dict task)]
       success := false
       error := Option.some "Content and subject are required" }, st, tr)
  else
    match perform_content_analysis content subject with
    | Except.error e =>
        ({ content := ""
           metadata := [("student_id", student_id), ("subject", subject)]
           success := false
           error := Option.some e }, st, tr)
    | Except.ok analysis =>
        match pmTextOr cfg b "Failed to generate quiz" tr with
        | (Except.error e, tr2) =>
            ({ content := ""
               metadata := [("student_id", student_id), ("subject", subject)]
               success := false
               error := Option.some e }, st, tr2)
        | (Except.ok quiz_content, tr2) =>
            match pyMulInt num_questions 2 with
            | Except.error e =>
                ({ content := ""
                   metadata := [("student_id", student_id), ("subject", subject)]
                   success := false
                   error := Option.some e }, st, tr2)
            | Except.ok dur =>
                let material : StudyMaterial :=
                  { title := subject.toText ++ " Practice Quiz"
                    content := quiz_content
                    material_type := "quiz", subject := subject
                    learning_style := PyVal.str "mixed"
                    difficulty_level := analysis.difficulty_level
                    estimated_duration := dur
                    tags := analysis.key_concepts, created_at := now }
                ({ content := quiz_content
                   metadata := [("student_id", student_id), ("subject", subject),
                                ("question_types", question_types),
                                ("num_questions", num_questions),
                                ("material", materialMeta material)]
                   success := true }, storeMaterial st student_id material, tr2)

/-- `NotewriterAgent._create_flashcards` (notewriter.py lines 404-477);
`_create_flashcard_set` (lines 773-795) is a `pmTextOr` with fallback
`"Failed to generate flashcards"`. -/
def create_flashcards (cfg : AgentCfg) (b : Backend) (now : String) (task : PyDict)
    (st : NotewriterState) (tr : Trace) : AgentResponse × NotewriterState × Trace :=
  let content := PyDict.getD task "content" (PyVal.str "")
  let subject := PyDict.getD task "subject" (PyVal.str "")
  let num_cards := PyDict.getD task "num_cards" (PyVal.int 20)
  let student_id := PyDict.getD task "student_id" (PyVal.str "")
  if !content.truthy || !subject.truthy then
    ({ content := ""
       metadata := [("task", PyVal.dict task)]
       success := false
       error := Option.some "Content and subject are required" }, st, tr)
  else
    match perform_content_analysis content subject with
    | Except.error e =>
        ({ content := ""
           metadata := [("student_id", student_id), ("subject", subject)]
           success := false
           error := Option.some e }, st, tr)
    | Except.ok analysis =>
        match pmTextOr cfg b "Failed to generate flashcards" tr with
        | (Except.error e, tr2) =>
            ({ content := ""
               metadata := [("student_id", student_id), ("subject", subject)]
               success := false
               error := Option.some e }, st, tr2)
        | (Except.ok flashcard_content, tr2) =>
            match pyMulInt num_cards 1 with
            | Except.error e =>
                ({ content := ""
                   metadata := [("student_id", student_id), ("subject", subject)]
                   success := false
                   error := Option.some e }, st, tr2)
            | Except.ok dur =>
                let material : StudyMaterial :=
                  { title := subject.toText ++ " Flashcards"
                    content := flashcard_content
                    material_type := "flashcards", subject := subject
                    learning_style := PyVal.str "mixed"
                    difficulty_level := analysis.difficulty_level
                    estimated_duration := dur
                    tags := analysis.key_concepts, created_at := now }
                ({ content := flashcard_content
                   metadata := [("student_id", student_id), ("subject", subject),
                                ("num_cards", num_cards),
                                ("material", materialMeta material)]
                   success := true }, storeMaterial st student_id material, tr2)

/-- `NotewriterAgent._adapt_content` (notewriter.py lines 479-552);
`_adapt_to_learning_style` (lines 797-821) is a `pmTextOr` with fallback
`"Failed to adapt content"`. -/
def adapt_content (cfg : AgentCfg) (b : Backend) (now : String) (task : PyDict)
    (st : NotewriterState) (tr : Trace) : AgentResponse × NotewriterState × Trace :=
  let original_content := PyDict.getD task "original_content" (PyVal.str "")
  let target_learning_style := PyDict.getD task "target_learning_style" (PyVal.str "visual")
  let subject := PyDict.getD task "subject" (PyVal.str "")
  let student_id := PyDict.getD task "student_id" (PyVal.str "")
  if !original_content.truthy || !target_learning_style.truthy then
    ({ content := ""
       metadata := [("task", PyVal.dict task)]
       success := false
       error := Option.some "Original content and target learning style are required" }, st, tr)
  else
    match perform_content_analysis original_content subject with
    | Except.error e =>
        ({ content := ""
           metadata := [("student_id", student_id), ("subject", subject)]
           success := false
           error := Option.some e }, st, tr)
    | Except.ok analysis =>
        match pmTextOr cfg b "Failed to adapt content" tr with
        | (Except.error e, tr2) =>
            ({ content := ""
               metadata := [("student_id", student_id), ("subject", subject)]
               success := false
               error := Option.some e }, st, tr2)
        | (Except.ok adapted_content, tr2) =>
            match pyTitle target_learning_style with
            | Except.error e =>
                ({ content := ""
                   metadata := [("student_id", student_id), ("subject", subject)]
                   success := false
                   error := Option.some e }, st, tr2)
            | Except.ok tword =>
                let material : StudyMaterial :=
                  { title := subject.toText ++ " (" ++ tword ++ " Style)"
                    content := adapted_content
                    material_type := "adapted_content", subject := subject
                    learning_style := target_learning_style
                    difficulty_level := analysis.difficulty_level
                    estimated_duration := analysis.estimated_study_time
                    tags := analysis.key_concepts, created_at := now }
                ({ content := adapted_content
                   metadata := [("student_id", student_id), ("subject", subject),
                                ("target_learning_style", target_learning_style),
                                ("material", materialMeta material)]
                   success := true }, storeMaterial st student_id material, tr2)

/-- `NotewriterAgent._create_visual_aids` (notewriter.py lines 554-627);
`_generate_visual_description` (lines 823-846) is a `pmTextOr` with fallback
`"Failed to generate visual description"`. -/
def create_visual_aids (cfg : AgentCfg) (b : Backend) (now : String) (task : PyDict)
    (st : NotewriterState) (tr : Trace) : AgentResponse × NotewriterState × Trace :=
  let content := PyDict.getD task "content" (PyVal.str "")
  let subject := PyDict.getD task "subject" (PyVal.str "")
  let visual_type := PyDict.getD task "visual_type" (PyVal.str "mind_map")
  let student_id := PyDict.getD task "student_id" (PyVal.str "")
  if !content.truthy || !subject.truthy then
    ({ content := ""
       metadata := [("task", PyVal.dict task)]
       success := false
       error := Option.some "Content and subject are required" }, st, tr)
  else
    match perform_content_analysis content subject with
    | Except.error e =>
        ({ content := ""
           metadata := [("student_id", student_id), ("subject", subject)]
           success := false
           error := Option.some e }, st, tr)
    | Except.ok analysis =>
        match pmTextOr cfg b "Failed to generate visual description" tr with
        | (Except.error e, tr2) =>
            ({ content := ""
               metadata := [("student_id", student_id), ("subject", subject)]
               success := false
               error := Option.some e }, st, tr2)
        | (Except.ok visual_content, tr2) =>
            match (do
              let replaced ← pyReplace visual_type "_" " "
              let dur ← pyFloorDivInt analysis.estimated_study_time 3
              Except.ok (titleCase replaced, dur)) with
            | Except.error e =>
                ({ content := ""
                   metadata := [("student_id", student_id), ("subject", subject)]
                   success := false
                   error := Option.some e }, st, tr2)
            | Except.ok (tword, dur) =>
                let material : StudyMaterial :=
                  { title := subject.toText ++ " " ++ tword
                    content := visual_content
                    material_type := "visual_aid", subject := subject
                    learning_style := PyVal.str "visual"
                    difficulty_level := analysis.difficulty_level
                    estimated_duration := dur
                    tags := analysis.key_concepts, created_at := now }
                ({ content := visual_content
                   metadata := [("student_id", student_id), ("subject", subject),
                                ("visual_type", visual_type),
                                ("material", materialMeta material)]
                   success := true }, storeMaterial st student_id material, tr2)

/-- `NotewriterAgent.process_task` (notewriter.py lines 87-119): dispatch on
`task.get("type", "unknown")`. -/
def process_task (cfg : AgentCfg) (b : Backend) (now : String) (task : PyDict)
    (st : NotewriterState) (tr : Trace) : AgentResponse × NotewriterState × Trace :=
  let task_type := PyDict.getD task "type" (PyVal.str "unknown")
  if PyVal.beq task_type (PyVal.str "analyze_content") then
    let (r, st2) := analyze_content now task st
    (r, st2, tr)
  else if PyVal.beq task_type (PyVal.str "generate_notes") then
    generate_notes cfg b now task st tr
  else if PyVal.beq task_type (PyVal.str "create_summary") then
    create_summary cfg b now task st tr
  else if PyVal.beq task_type (PyVal.str "generate_quiz") then
    generate_quiz cfg b now task st tr
  else if PyVal.beq task_type (PyVal.str "create_flashcards") then
    create_flashcards cfg b now task st tr
  else if PyVal.beq task_type (PyVal.str "adapt_content") then
    adapt_content cfg b now task st tr
  else if PyVal.beq task_type (PyVal.str "create_visual_aids") then
    create_visual_aids cfg b now task st tr
  else
    (handle_unknown_task task, st, tr)

end Notewriter

example :
    (Notewriter.process_task ⟨"Notewriter", 2, 5⟩ (fun _ => Except.ok "notes") "t0"
      [("type", PyVal.str "generate_notes"), ("content", PyVal.str "alpha beta"),
       ("subject", PyVal.str "Math")] ⟨[], []⟩ (0, [])).1.content = "notes" := rfl

example :
    (Notewriter.process_task ⟨"Notewriter", 2, 5⟩ (fun _ => Except.ok "notes") "t0"
      [("type", PyVal.str "generate_notes")] ⟨[], []⟩ (0, [])).2.2 = (0, []) := rfl

/-!
## CoordinatorAgent (src/agents/coordinator.py)
-/

/-- `target.update(updates)` on Python dicts: merge right into left, keeping
insertion order; raises when either operand is not a mapping. -/
def pyUpdate (target updates : PyVal) : Except String PyVal :=
  match target, updates with
  | .dict d, .dict u =>
      Except.ok (PyVal.dict (u.foldl (fun acc kv => PyDict.set acc kv.fst kv.snd) d))
  | .dict _, _ => Except.error "TypeError: update argument must be a mapping"
  | _, _ => Except.error "AttributeError: object has no attribute update"

namespace Coordinator

/-- An agent held in `self.agent_registry`, abstracted as the
envelope-returning behaviours the coordinator invokes on it (`process_task`,
`process_message`, `get_capabilities`, `health_check`, `get_status`).  The
registered agents of the repository are the planner, notewriter and advisor
embedded above; a registered object whose calls raise is outside this
abstraction. -/
structure SubAgent where
  procTask : PyVal → PyVal → AgentResponse
  procMessage : PyVal → PyVal → AgentResponse
  capabilities : List String
  healthCheck : Bool
  statusRep : PyVal

/-- One entry of `self.active_workflows` (coordinator.py lines 329-332). -/
structure WorkflowRec where
  data : PyVal
  timestamp : String

/-- The coordinator's mutable per-agent state (coordinator.py lines 35-37);
`workflow_history` uses the `ExecRecord`/`record_workflow_execution`
embedding above. -/
structure CoordinatorState where
  active_workflows : List (PyVal × WorkflowRec)
  agent_registry : List (PyVal × SubAgent)
  workflow_history : List ExecRecord

/-- `CoordinatorAgent._execute_workflow_step` (coordinator.py lines 129-157). -/
def execute_workflow_step (st : CoordinatorState) (step current_state : PyVal) :
    Except String AgentResponse := do
  let agent_name ← pyGet step "agent"
  let step_type ← pyGet step "type"
  let step_data ← pyGetD step "data" (PyVal.dict [])
  match pyAssocGet st.agent_registry agent_name with
  | Option.none =>
      Except.ok
        { content := ""
          metadata := [("step", step)]
          success := false
          error := Option.some ("Agent " ++ agent_name.toText ++ " not found in registry") }
  | Option.some agent =>
      let task := PyVal.dict [("type", step_type), ("data", step_data),
                              ("workflow_context", current_state)]
      Except.ok (agent.procTask task current_state)

/-- The `for step in workflow_steps` loop of `_execute_workflow`
(coordinator.py lines 86-96), with the `terminate_on_failure` break. -/
def workflowLoop (st : CoordinatorState) :
    List PyVal → PyVal → List AgentResponse →
    Except String (List AgentResponse × PyVal)
  | [], cs, acc => Except.ok (acc, cs)
  | step :: rest, cs, acc => do
      let step_result ← execute_workflow_step st step cs
      let acc2 := acc ++ [step_result]
      let cs2 ←
        if step_result.success then
          pyUpdate cs (PyDict.getD step_result.metadata "state_updates" (PyVal.dict []))
        else
          Except.ok cs
      let tof ← pyGet step "terminate_on_failure"
      if tof.truthy && !step_result.success then Except.ok (acc2, cs2)
      else workflowLoop st rest cs2 acc2

/-- `CoordinatorAgent._compile_workflow_results` (coordinator.py lines
477-494). -/
def compile_workflow_results (results : List AgentResponse)
    (_final_state : PyVal) : String :=
  let successful := (results.filter (fun r => r.success)).length
  let total := results.length
  let summary := "Workflow completed: " ++ toString successful ++ "/" ++
    toString total ++ " steps successful"
  if successful == total then
    summary ++ "\nAll steps completed successfully."
  else
    let failed := ((results.enum.filter (fun p => !p.snd.success)).map
      (fun p => p.fst))
    summary ++ "\nFailed steps: [" ++
      String.intercalate ", " (failed.map toString) ++ "]"

/-- `CoordinatorAgent._execute_workflow` (coordinator.py lines 67-127).  The
aggregated envelope (lines 105-114) sets `success` from the step results but
never sets `error`. -/
def execute_workflow (now : String) (task : PyDict) (context : PyVal)
    (st : CoordinatorState) : AgentResponse × CoordinatorState :=
  let workflow_id := PyDict.get task "workflow_id"
  let workflow_steps := PyDict.getD task "steps" (PyVal.list [])
  match (do
    let cs0 := if context.truthy then context else PyVal.dict []
    let steps ← pyIter workflow_steps
    workflowLoop st steps cs0 []) with
  | Except.error e =>
      ({ content := ""
         metadata := [("workflow_id", workflow_id)]
         success := false
         error := Option.some e }, st)
  | Except.ok (results, final_state) =>
      let success := results.all (fun r => r.success)
      let final_result := compile_workflow_results results final_state
      let st2 := { st with workflow_history :=
        (record_workflow_execution st.workflow_history
          (mkExecRecord workflow_id now success results)) }
      ({ content := final_result
         metadata := [("workflow_id", workflow_id),
                      ("steps_executed", PyVal.int results.length),
                      ("success", PyVal.bool success),
                      ("final_state", final_state)]
         success := success }, st2)

/-- `CoordinatorAgent._register_agent` (coordinator.py lines 181-213).  The
`agent_instance` object travels outside `PyVal` as an `Option SubAgent`
side channel (`Option.none` models an absent or `None` value; objects are
truthy). -/
def register_agent (task : PyDict) (inst : Option SubAgent)
    (st : CoordinatorState) : AgentResponse × CoordinatorState :=
  let agent_name := PyDict.get task "agent_name"
  match inst with
  | Option.none =>
      ({ content := ""
         metadata := [("task", PyVal.dict task)]
         success := false
         error := Option.some "Agent name and instance are required" }, st)
  | Option.some agent =>
      if !agent_name.truthy then
        ({ content := ""
           metadata := [("task", PyVal.dict task)]
           success := false
           error := Option.some "Agent name and instance are required" }, st)
      else
        let st2 := { st with agent_registry :=
          (pyAssocSet st.agent_registry agent_name agent) }
        ({ content := "Agent " ++ agent_name.toText ++ " registered successfully"
           metadata := [("agent_name", agent_name),
                        ("registry_size", PyVal.int st2.agent_registry.length)]
           success := true }, st2)

/-- `CoordinatorAgent._facilitate_agent_communication` (coordinator.py lines
215-254): forwards `process_message` to the target and propagates its
`success`/`error` while wrapping its own content text. -/
def facilitate_agent_communication (task : PyDict) (context : PyVal)
    (st : CoordinatorState) : AgentResponse × CoordinatorState :=
  let source_agent := PyDict.get task "source_agent"
  let target_agent := PyDict.get task "target_agent"
  let message := PyDict.get task "message"
  if !source_agent.truthy || !target_agent.truthy || !message.truthy then
    ({ content := ""
       metadata := [("task", PyVal.dict task)]
       success := false
       error := Option.some "Source agent, target agent, and message are required" }, st)
  else
    match pyAssocGet st.agent_registry target_agent with
    | Option.none =>
        ({ content := ""
           metadata := [("task", PyVal.dict task)]
           success := false
           error := Option.some ("Target agent " ++ target_agent.toText ++ " not found") }, st)
    | Option.some agent =>
        let response := agent.procMessage message context
        ({ content := "Message forwarded from " ++ source_agent.toText ++ " to " ++
             target_agent.toText
           metadata := [("source_agent", source_agent),
                        ("target_agent", target_agent),
                        ("response",
                         if response.success then PyVal.str response.content
                         else match response.error with
                              | Option.some e => PyVal.str e
                              | Option.none => PyVal.none)]
           success := response.success
           error := response.error }, st)

/-- `CoordinatorAgent._balance_agent_load` (coordinator.py lines 256-295). -/
def balance_agent_load (task : PyDict) (context : PyVal)
    (st : CoordinatorState) : AgentResponse × CoordinatorState :=
  let agent_type := PyDict.get task "agent_type"
  let task_data := PyDict.get task "task_data"
  let available := st.agent_registry.filter
    (fun na => na.snd.capabilities.any (fun c => PyVal.beq agent_type (PyVal.str c)))
  match available with
  | [] =>
      ({ content := ""
         metadata := [("task", PyVal.dict task)]
         success := false
         error := Option.some ("No agents available for type: " ++ agent_type.toText) }, st)
  | (selected_name, selected_agent) :: _ =>
      let result := selected_agent.procTask task_data context
      ({ content := "Task assigned to " ++ selected_name.toText
         metadata := [("assigned_agent", selected_name),
                      ("agent_type", agent_type),
                      ("result",
                       if result.success then PyVal.str result.content
                       else match result.error with
                            | Option.some e => PyVal.str e
                            | Option.none => PyVal.none)]
         success := result.success
         error := result.error }, st)

/-- `CoordinatorAgent._coordinate_agents` (coordinator.py lines 159-179). -/
def coordinate_agents (task : PyDict) (inst : Option SubAgent) (context : PyVal)
    (st : CoordinatorState) : AgentResponse × CoordinatorState :=
  let coordination_type := PyDict.get task "coordination_type"
  if PyVal.beq coordination_type (PyVal.str "register_agent") then
    register_agent task inst st
  else if PyVal.beq coordination_type (PyVal.str "agent_communication") then
    facilitate_agent_communication task context st
  else if PyVal.beq coordination_type (PyVal.str "load_balancing") then
    balance_agent_load task context st
  else
    ({ content := ""
       metadata := [("task", PyVal.dict task)]
       success := false
       error := Option.some ("Unknown coordination type: " ++ coordination_type.toText) }, st)

/-- `CoordinatorAgent._save_state` (coordinator.py lines 319-338). -/
def save_state (now : String) (task : PyDict) (context : PyVal)
    (st : CoordinatorState) : AgentResponse × CoordinatorState :=
  let state_key := PyDict.get task "state_key"
  let state_data := PyDict.getD task "state_data"
    (if context.truthy then context else PyVal.dict [])
  let st2 := { st with active_workflows :=
    (pyAssocSet st.active_workflows state_key ⟨state_data, now⟩) }
  ({ content := "State saved with key: " ++ state_key.toText
     metadata := [("state_key", state_key), ("timestamp", PyVal.str now)]
     success := true }, st2)

/-- `CoordinatorAgent._load_state` (coordinator.py lines 340-362). -/
def load_state (task : PyDict) (st : CoordinatorState) :
    AgentResponse × CoordinatorState :=
  let state_key := PyDict.get task "state_key"
  match pyAssocGet st.active_workflows state_key with
  | Option.none =>
      ({ content := ""
         metadata := [("task", PyVal.dict task)]
         success := false
         error := Option.some ("State not found for key: " ++ state_key.toText) }, st)
  | Option.some rec =>
      ({ content := "State loaded for key: " ++ state_key.toText
         metadata := [("state_key", state_key),
                      ("state_data", PyVal.dict [("data", rec.data),
                                                 ("timestamp", PyVal.str rec.timestamp)])]
         success := true }, st)

/-- `CoordinatorAgent._update_state` (coordinator.py lines 364-389).  The
`["data"].update(updates)` call sits outside any try, so a `TypeError` there
propagates out of `process_task` (the `Except.error` case). -/
def update_state (now : String) (task : PyDict) (st : CoordinatorState) :
    Except String (AgentResponse × CoordinatorState) :=
  let state_key := PyDict.get task "state_key"
  let updates := PyDict.getD task "updates" (PyVal.dict [])
  match pyAssocGet st.active_workflows state_key with
  | Option.none =>
      Except.ok
        ({ content := ""
           metadata := [("task", PyVal.dict task)]
           success := false
           error := Option.some ("State not found for key: " ++ state_key.toText) }, st)
  | Option.some rec => do
      let newData ← pyUpdate rec.data updates
      let st2 := { st with active_workflows :=
        (pyAssocSet st.active_workflows state_key ⟨newData, now⟩) }
      Except.ok
        ({ content := "State updated for key: " ++ state_key.toText
           metadata := [("state_key", state_key), ("updates", updates)]
           success := true }, st2)

/-- `CoordinatorAgent._manage_state` (coordinator.py lines 297-317). -/
def manage_state (now : String) (task : PyDict) (context : PyVal)
    (st : CoordinatorState) : Except String (AgentResponse × CoordinatorState) :=
  let state_action := PyDict.get task "action"
  if PyVal.beq state_action (PyVal.str "save_state") then
    Except.ok (save_state now task context st)
  else if PyVal.beq state_action (PyVal.str "load_state") then
    Except.ok (load_state task st)
  else if PyVal.beq state_action (PyVal.str "update_state") then
    update_state now task st
  else
    Except.ok
      ({ content := ""
         metadata := [("task", PyVal.dict task)]
         success := false
         error := Option.some ("Unknown state action: " ++ state_action.toText) }, st)

/-- `CoordinatorAgent._perform_health_check` (coordinator.py lines 411-436):
aggregates per-agent health and sets `success` from it, never `error`;
mapping keys in metadata are rendered as strings per the module conventions. -/
def perform_health_check (st : CoordinatorState) : AgentResponse :=
  let overall := st.agent_registry.all (fun na => na.snd.healthCheck)
  { content := "Health check completed"
    metadata := [("overall_health", PyVal.bool overall),
                 ("agent_health", PyVal.dict (st.agent_registry.map
                   (fun na => (na.fst.toText, PyVal.bool na.snd.healthCheck))))]
    success := overall }

/-- `CoordinatorAgent._collect_performance_metrics` (coordinator.py lines
438-454). -/
def collect_performance_metrics (st : CoordinatorState) : AgentResponse :=
  { content := "Performance metrics collected"
    metadata := [("metrics", PyVal.dict
      [("total_agents", PyVal.int st.agent_registry.length),
       ("active_workflows", PyVal.int st.active_workflows.length),
       ("workflow_history_size", PyVal.int st.workflow_history.length),
       ("agent_status", PyVal.dict (st.agent_registry.map
         (fun na => (na.fst.toText, na.snd.statusRep))))])]
    success := true }

/-- `CoordinatorAgent._monitor_performance` (coordinator.py lines 391-409). -/
def monitor_performance (task : PyDict) (st : CoordinatorState) :
    AgentResponse × CoordinatorState :=
  let monitoring_type := PyDict.getD task "monitoring_type" (PyVal.str "health_check")
  if PyVal.beq monitoring_type (PyVal.str "health_check") then
    (perform_health_check st, st)
  else if PyVal.beq monitoring_type (PyVal.str "performance_metrics") then
    (collect_performance_metrics st, st)
  else
    ({ content := ""
       metadata := [("task", PyVal.dict task)]
       success := false
       error := Option.some ("Unknown monitoring type: " ++ monitoring_type.toText) }, st)

/-- `CoordinatorAgent.process_task` (coordinator.py lines 39-65): dispatch on
`task.get("type", "unknown")`; the `Except.error` case is an exception
escaping `process_task` (only `_update_state` can produce one). -/
def process_task (now : String) (task : PyDict) (inst : Option SubAgent)
    (context : PyVal) (st : CoordinatorState) :
    Except String (AgentResponse × CoordinatorState) :=
  let task_type := PyDict.getD task "type" (PyVal.str "unknown")
  if PyVal.beq task_type (PyVal.str "workflow_execution") then
    Except.ok (execute_workflow now task context st)
  else if PyVal.beq task_type (PyVal.str "agent_coordination") then
    Except.ok (coordinate_agents task inst context st)
  else if PyVal.beq task_type (PyVal.str "state_management") then
    manage_state now task context st
  else if PyVal.beq task_type (PyVal.str "performance_monitoring") then
    Except.ok (monitor_performance task st)
  else
    Except.ok (handle_unknown_task task, st)

end Coordinator

example :
    (Coordinator.process_task "t0"
      [("type", PyVal.str "workflow_execution"), ("workflow_id", PyVal.str "w1"),
       ("steps", PyVal.list [PyVal.dict [("agent", PyVal.str "X")]])]
      Option.none PyVal.none ⟨[], [], []⟩).map
      (fun r => (r.1.success, r.1.error, r.1.content)) =
    Except.ok (false, Option.none,
      "Workflow completed: 0/1 steps successful\nFailed steps: [0]") := rfl

/-!
## Envelope discipline
-/

/-- The spec invariant: `error` is set iff `success` is false. -/
def envelopeInv (r : AgentResponse) : Prop :=
  r.success = true ↔ r.error = Option.none

/-- The invariant together with the failure-content rule: a failure envelope
carries an empty `content`. -/
def envelopeOk (r : AgentResponse) : Prop :=
  envelopeInv r ∧ (r.success = false → r.content = "")

theorem pyAssocGet_mem {α : Type} (m : List (PyVal × α)) (k : PyVal) (v : α)
    (h : pyAssocGet m k = Option.some v) : ∃ l, (l, v) ∈ m := by
  induction m with
  | nil => simp [pyAssocGet] at h
  | cons p rest ih =>
      obtain ⟨l, w⟩ := p
      rw [pyAssocGet] at h
      by_cases hb : PyVal.beq l k
      · rw [if_pos hb] at h
        cases h
        exact ⟨l, List.mem_cons_self _ _⟩
      · rw [if_neg hb] at h
        obtain ⟨l2, hmem⟩ := ih h
        exact ⟨l2, List.mem_cons_of_mem _ hmem⟩

theorem processAttempts_envelopeOk (cfg : AgentCfg) (ctx : PyVal) (b : Backend) :
    ∀ (fuel attempt calls : Nat) (sleeps : List Int) (env : AgentResponse),
      (processAttempts cfg ctx b fuel attempt calls sleeps).1 = Option.some env →
      envelopeOk env := by
  intro fuel
  induction fuel with
  | zero =>
      intro a c s env h
      rw [processAttempts] at h
      exact absurd h (by simp)
  | succ m ih =>
      intro a c s env h
      rw [processAttempts] at h
      cases hb : b c with
      | ok t =>
          rw [hb] at h
          simp only [Option.some.injEq] at h
          subst h
          simp [envelopeOk, envelopeInv]
      | error e =>
          rw [hb] at h
          dsimp only at h
          by_cases hat : ((a : Nat) : Int) = cfg.max_retries
          · rw [if_pos hat] at h
            simp only [Option.some.injEq] at h
            subst h
            simp [envelopeOk, envelopeInv]
          · rw [if_neg hat] at h
            exact ih (a + 1) (c + 1) (s ++ [cfg.retry_delay]) env h

theorem handle_unknown_task_inv (task : PyDict) :
    envelopeInv (handle_unknown_task task) := by
  simp [handle_unknown_task, envelopeInv]

theorem planner_create_schedule_ok (now : String) (task : PyDict)
    (st : Planner.PlannerState) :
    envelopeOk (Planner.create_schedule now task st).1 := by
  unfold Planner.create_schedule
  dsimp only
  split
  · simp [envelopeOk, envelopeInv]
  · split <;> simp [envelopeOk, envelopeInv]

theorem planner_optimize_schedule_ok (now : String) (task : PyDict)
    (st : Planner.PlannerState) :
    envelopeOk (Planner.optimize_schedule now task st).1 := by
  unfold Planner.optimize_schedule
  dsimp only
  split <;> simp [envelopeOk, envelopeInv]

theorem planner_add_study_session_ok (now : String) (task : PyDict)
    (st : Planner.PlannerState) :
    envelopeOk (Planner.add_study_session now task st).1 := by
  unfold Planner.add_study_session
  dsimp only
  split
  · simp [envelopeOk, envelopeInv]
  · split <;> simp [envelopeOk, envelopeInv]

theorem planner_manage_deadlines_ok (now : String) (task : PyDict)
    (st : Planner.PlannerState) :
    envelopeOk (Planner.manage_deadlines now task st).1 := by
  unfold Planner.manage_deadlines
  dsimp only
  split
  · simp [envelopeOk, envelopeInv]
  · split <;> simp [envelopeOk, envelopeInv]

theorem planner_adapt_schedule_ok (now : String) (task : PyDict)
    (st : Planner.PlannerState) :
    envelopeOk (Planner.adapt_schedule now task st).1 := by
  unfold Planner.adapt_schedule
  dsimp only
  split
  · simp [envelopeOk, envelopeInv]
  · split <;> simp [envelopeOk, envelopeInv]

theorem planner_spaced_repetition_ok (now : String) (task : PyDict)
    (st : Planner.PlannerState) :
    envelopeOk (Planner.schedule_spaced_repetition now task st).1 := by
  unfold Planner.schedule_spaced_repetition
  dsimp only
  split
  · simp [envelopeOk, envelopeInv]
  · split <;> simp [envelopeOk, envelopeInv]

theorem planner_process_task_inv (now : String) (task : PyDict)
    (st : Planner.PlannerState) :
    envelopeInv (Planner.process_task now task st).1 := by
  unfold Planner.process_task
  dsimp only
  split_ifs
  · exact (planner_create_schedule_ok now task st).1
  · exact (planner_optimize_schedule_ok now task st).1
  · exact (planner_add_study_session_ok now task st).1
  · exact (planner_manage_deadlines_ok now task st).1
  · exact (planner_adapt_schedule_ok now task st).1
  · exact (planner_spaced_repetition_ok now task st).1
  · exact handle_unknown_task_inv task

theorem advisor_provide_guidance_ok (cfg : AgentCfg) (b : Backend) (now : String)
    (task : PyDict) (st : Advisor.AdvisorState) (tr : Trace) :
    envelopeOk (Advisor.provide_guidance cfg b now task st tr).1 := by
  unfold Advisor.provide_guidance
  dsimp only
  repeat' split
  all_goals simp [envelopeOk, envelopeInv]

theorem advisor_develop_strategy_ok (task : PyDict) (st : Advisor.AdvisorState) :
    envelopeOk (Advisor.develop_strategy task st).1 := by
  unfold Advisor.develop_strategy
  dsimp only
  repeat' split
  all_goals simp [envelopeOk, envelopeInv]

theorem advisor_assess_progress_ok (task : PyDict) (st : Advisor.AdvisorState) :
    envelopeOk (Advisor.assess_progress task st).1 := by
  unfold Advisor.assess_progress
  dsimp only
  split <;> simp [envelopeOk, envelopeInv]

theorem advisor_offer_motivation_ok (task : PyDict) (st : Advisor.AdvisorState) :
    envelopeOk (Advisor.offer_motivation task st).1 := by
  unfold Advisor.offer_motivation
  dsimp only
  split <;> simp [envelopeOk, envelopeInv]

theorem advisor_intervention_plan_ok (task : PyDict) (st : Advisor.AdvisorState) :
    envelopeOk (Advisor.create_intervention_plan task st).1 := by
  unfold Advisor.create_intervention_plan
  dsimp only
  split <;> simp [envelopeOk, envelopeInv]

theorem advisor_goal_setting_ok (task : PyDict) (st : Advisor.AdvisorState) :
    envelopeOk (Advisor.facilitate_goal_setting task st).1 := by
  unfold Advisor.facilitate_goal_setting
  dsimp only
  split <;> simp [envelopeOk, envelopeInv]

theorem advisor_stress_assessment_ok (task : PyDict) (st : Advisor.AdvisorState) :
    envelopeOk (Advisor.assess_stress_levels task st).1 := by
  unfold Advisor.assess_stress_levels
  dsimp only
  split <;> simp [envelopeOk, envelopeInv]

theorem advisor_process_task_inv (cfg : AgentCfg) (b : Backend) (now : String)
    (task : PyDict) (st : Advisor.AdvisorState) (tr : Trace) :
    envelopeInv (Advisor.process_task cfg b now task st tr).1 := by
  unfold Advisor.process_task
  dsimp only
  split_ifs
  · exact (advisor_provide_guidance_ok cfg b now task st tr).1
  · rcases h : Advisor.develop_strategy task st with ⟨r, s⟩
    have h2 := (advisor_develop_strategy_ok task st).1
    rw [h] at h2
    simpa using h2
  · rcases h : Advisor.assess_progress task st with ⟨r, s⟩
    have h2 := (advisor_assess_progress_ok task st).1
    rw [h] at h2
    simpa using h2
  · rcases h : Advisor.offer_motivation task st with ⟨r, s⟩
    have h2 := (advisor_offer_motivation_ok task st).1
    rw [h] at h2
    simpa using h2
  · rcases h : Advisor.create_intervention_plan task st with ⟨r, s⟩
    have h2 := (advisor_intervention_plan_ok task st).1
    rw [h] at h2
    simpa using h2
  · rcases h : Advisor.facilitate_goal_setting task st with ⟨r, s⟩
    have h2 := (advisor_goal_setting_ok task st).1
    rw [h] at h2
    simpa using h2
  · rcases h : Advisor.assess_stress_levels task st with ⟨r, s⟩
    have h2 := (advisor_stress_assessment_ok task st).1
    rw [h] at h2
    simpa using h2
  · exact handle_unknown_task_inv task

theorem notewriter_analyze_content_ok (now : String) (task : PyDict)
    (st : Notewriter.NotewriterState) :
    envelopeOk (Notewriter.analyze_content now task st).1 := by
  unfold Notewriter.analyze_content
  dsimp only
  repeat' split
  all_goals simp [envelopeOk, envelopeInv]

theorem notewriter_generate_notes_ok (cfg : AgentCfg) (b : Backend) (now : String)
    (task : PyDict) (st : Notewriter.NotewriterState) (tr : Trace) :
    envelopeOk (Notewriter.generate_notes cfg b now task st tr).1 := by
  unfold Notewriter.generate_notes
  dsimp only
  repeat' split
  all_goals simp [envelopeOk, envelopeInv]

theorem notewriter_create_summary_ok (cfg : AgentCfg) (b : Backend) (now : String)
    (task : PyDict) (st : Notewriter.NotewriterState) (tr : Trace) :
    envelopeOk (Notewriter.create_summary cfg b now task st tr).1 := by
  unfold Notewriter.create_summary
  dsimp only
  repeat' split
  all_goals simp [envelopeOk, envelopeInv]

theorem notewriter_generate_quiz_ok (cfg : AgentCfg) (b : Backend) (now : String)
    (task : PyDict) (st : Notewriter.NotewriterState) (tr : Trace) :
    envelopeOk (Notewriter.generate_quiz cfg b now task st tr).1 := by
  unfold Notewriter.generate_quiz
  dsimp only
  repeat' split
  all_goals simp [envelopeOk, envelopeInv]

theorem notewriter_create_flashcards_ok (cfg : AgentCfg) (b : Backend) (now : String)
    (task : PyDict) (st : Notewriter.NotewriterState) (tr : Trace) :
    envelopeOk (Notewriter.create_flashcards cfg b now task st tr).1 := by
  unfold Notewriter.create_flashcards
  dsimp only
  repeat' split
  all_goals simp [envelopeOk, envelopeInv]

theorem notewriter_adapt_content_ok (cfg : AgentCfg) (b : Backend) (now : String)
    (task : PyDict) (st : Notewriter.NotewriterState) (tr : Trace) :
    envelopeOk (Notewriter.adapt_content cfg b now task st tr).1 := by
  unfold Notewriter.adapt_content
  dsimp only
  repeat' split
  all_goals simp [envelopeOk, envelopeInv]

theorem notewriter_create_visual_aids_ok (cfg : AgentCfg) (b : Backend) (now : String)
    (task : PyDict) (st : Notewriter.NotewriterState) (tr : Trace) :
    envelopeOk (Notewriter.create_visual_aids cfg b now task st tr).1 := by
  unfold Notewriter.create_visual_aids
  dsimp only
  repeat' split
  all_goals simp [envelopeOk, envelopeInv]

theorem notewriter_process_task_inv (cfg : AgentCfg) (b : Backend) (now : String)
    (task : PyDict) (st : Notewriter.NotewriterState) (tr : Trace) :
    envelopeInv (Notewriter.process_task cfg b now task st tr).1 := by
  unfold Notewriter.process_task
  dsimp only
  split_ifs
  · rcases h : Notewriter.analyze_content now task st with ⟨r, s⟩
    have h2 := (notewriter_analyze_content_ok now task st).1
    rw [h] at h2
    simpa using h2
  · exact (notewriter_generate_notes_ok cfg b now task st tr).1
  · exact (notewriter_create_summary_ok cfg b now task st tr).1
  · exact (notewriter_generate_quiz_ok cfg b now task st tr).1
  · exact (notewriter_create_flashcards_ok cfg b now task st tr).1
  · exact (notewriter_adapt_content_ok cfg b now task st tr).1
  · exact (notewriter_create_visual_aids_ok cfg b now task st tr).1
  · exact handle_unknown_task_inv task

/-- The envelope-invariant hypothesis on every agent registered with the
coordinator (the embedded planner, notewriter and advisor all satisfy it, by
`planner_process_task_inv`, `notewriter_process_task_inv`,
`advisor_process_task_inv` and `processAttempts_envelopeOk`). -/
def registryInv (st : Coordinator.CoordinatorState) : Prop :=
  ∀ p ∈ st.agent_registry,
    (∀ t c, envelopeInv (p.snd.procTask t c)) ∧
    (∀ m c, envelopeInv (p.snd.procMessage m c))

theorem coordinator_register_agent_ok (task : PyDict)
    (inst : Option Coordinator.SubAgent) (st : Coordinator.CoordinatorState) :
    envelopeOk (Coordinator.register_agent task inst st).1 := by
  unfold Coordinator.register_agent
  dsimp only
  repeat' split
  all_goals simp [envelopeOk, envelopeInv]

theorem coordinator_communication_inv (task : PyDict) (context : PyVal)
    (st : Coordinator.CoordinatorState) (hreg : registryInv st) :
    envelopeInv (Coordinator.facilitate_agent_communication task context st).1 := by
  unfold Coordinator.facilitate_agent_communication
  dsimp only
  split
  · simp [envelopeInv]
  · split
    · simp [envelopeInv]
    · rename_i agent hget
      obtain ⟨l, hmem⟩ := pyAssocGet_mem _ _ _ hget
      have h2 := ((hreg (l, agent) hmem).2 (PyDict.get task "message") context)
      simpa [envelopeInv] using h2

theorem coordinator_load_balancing_inv (task : PyDict) (context : PyVal)
    (st : Coordinator.CoordinatorState) (hreg : registryInv st) :
    envelopeInv (Coordinator.balance_agent_load task context st).1 := by
  unfold Coordinator.balance_agent_load
  dsimp only
  split
  · simp [envelopeInv]
  · rename_i nm agent rest heq
    have hmemf : (nm, agent) ∈ st.agent_registry.filter
        (fun na => na.snd.capabilities.any
          (fun c => PyVal.beq (PyDict.get task "agent_type") (PyVal.str c))) := by
      rw [heq]
      exact List.mem_cons_self _ _
    have hmem := (List.mem_filter.mp hmemf).1
    have h2 := ((hreg (nm, agent) hmem).1 (PyDict.get task "task_data") context)
    simpa [envelopeInv] using h2

theorem coordinator_coordinate_agents_inv (task : PyDict)
    (inst : Option Coordinator.SubAgent) (context : PyVal)
    (st : Coordinator.CoordinatorState) (hreg : registryInv st) :
    envelopeInv (Coordinator.coordinate_agents task inst context st).1 := by
  unfold Coordinator.coordinate_agents
  dsimp only
  split_ifs
  · exact (coordinator_register_agent_ok task inst st).1
  · exact coordinator_communication_inv task context st hreg
  · exact coordinator_load_balancing_inv task context st hreg
  · simp [envelopeInv]

theorem coordinator_update_state_ok (now : String) (task : PyDict)
    (st : Coordinator.CoordinatorState) (r : AgentResponse)
    (st2 : Coordinator.CoordinatorState)
    (h : Coordinator.update_state now task st = Except.ok (r, st2)) :
    envelopeOk r := by
  unfold Coordinator.update_state at h
  dsimp only at h
  split at h
  · simp only [Except.ok.injEq, Prod.mk.injEq] at h
    obtain ⟨h1, _⟩ := h
    subst h1
    simp [envelopeOk, envelopeInv]
  · rename_i rec _
    cases hupd : pyUpdate rec.data (PyDict.getD task "updates" (PyVal.dict [])) with
    | error e => rw [hupd] at h; simp [Bind.bind, Except.bind] at h
    | ok d =>
        rw [hupd] at h
        simp only [Bind.bind, Except.bind, Except.ok.injEq, Prod.mk.injEq] at h
        obtain ⟨h1, _⟩ := h
        subst h1
        simp [envelopeOk, envelopeInv]

theorem coordinator_save_state_ok (now : String) (task : PyDict) (context : PyVal)
    (st : Coordinator.CoordinatorState) :
    envelopeOk (Coordinator.save_state now task context st).1 := by
  unfold Coordinator.save_state
  dsimp only
  simp [envelopeOk, envelopeInv]

theorem coordinator_load_state_ok (task : PyDict)
    (st : Coordinator.CoordinatorState) :
    envelopeOk (Coordinator.load_state task st).1 := by
  unfold Coordinator.load_state
  dsimp only
  split <;> simp [envelopeOk, envelopeInv]

theorem coordinator_manage_state_ok (now : String) (task : PyDict) (context : PyVal)
    (st : Coordinator.CoordinatorState) (r : AgentResponse)
    (st2 : Coordinator.CoordinatorState)
    (h : Coordinator.manage_state now task context st = Except.ok (r, st2)) :
    envelopeOk r := by
  unfold Coordinator.manage_state at h
  dsimp only at h
  split_ifs at h
  · simp only [Except.ok.injEq] at h
    have h2 := coordinator_save_state_ok now task context st
    rw [h] at h2
    simpa using h2
  · simp only [Except.ok.injEq] at h
    have h2 := coordinator_load_state_ok task st
    rw [h] at h2
    simpa using h2
  · exact coordinator_update_state_ok now task st r st2 h
  · simp only [Except.ok.injEq, Prod.mk.injEq] at h
    obtain ⟨h1, _⟩ := h
    subst h1
    simp [envelopeOk, envelopeInv]

theorem coordinator_monitor_ok (task : PyDict) (st : Coordinator.CoordinatorState)
    (hmt : PyVal.beq (PyDict.getD task "monitoring_type" (PyVal.str "health_check"))
      (PyVal.str "health_check") = false) :
    envelopeOk (Coordinator.monitor_performance task st).1 := by
  unfold Coordinator.monitor_performance
  dsimp only
  rw [if_neg (by simp [hmt])]
  split <;> simp [envelopeOk, envelopeInv, Coordinator.collect_performance_metrics]

/-- C2 counterexample: a workflow-execution task with one step naming an
unregistered agent yields an aggregated envelope with `success = false` yet
`error = None` (coordinator.py lines 98-114 set `success` from the step
results but never pass `error`), so `success == (error is None)` fails. -/
theorem claim_C2_counterexample :
    (Coordinator.process_task "t0"
      [("type", PyVal.str "workflow_execution"), ("workflow_id", PyVal.str "w1"),
       ("steps", PyVal.list [PyVal.dict [("agent", PyVal.str "X")]])]
      Option.none PyVal.none ⟨[], [], []⟩).map
      (fun r => (r.1.success, r.1.error.isNone)) = Except.ok (false, true) := rfl

/-- C2 (amended): every envelope returned by `process_message` and by the
planner, advisor and notewriter `process_task` satisfies
`success == (error is None)`; the coordinator's `process_task` satisfies it
on every branch except its aggregated envelopes (workflow execution and the
health check), provided every registered agent's envelopes satisfy the
invariant — which the embedded planner, notewriter and advisor do. -/
theorem claim_C2_envelope_invariant_amended :
    (∀ (cfg : AgentCfg) (ctx : PyVal) (b : Backend) (env : AgentResponse),
       (process_message cfg ctx b).1 = Option.some env →
       (env.success = true ↔ env.error = Option.none)) ∧
    (∀ (now : String) (task : PyDict) (st : Planner.PlannerState),
       ((Planner.process_task now task st).1.success = true ↔
        (Planner.process_task now task st).1.error = Option.none)) ∧
    (∀ (cfg : AgentCfg) (b : Backend) (now : String) (task : PyDict)
       (st : Advisor.AdvisorState) (tr : Trace),
       ((Advisor.process_task cfg b now task st tr).1.success = true ↔
        (Advisor.process_task cfg b now task st tr).1.error = Option.none)) ∧
    (∀ (cfg : AgentCfg) (b : Backend) (now : String) (task : PyDict)
       (st : Notewriter.NotewriterState) (tr : Trace),
       ((Notewriter.process_task cfg b now task st tr).1.success = true ↔
        (Notewriter.process_task cfg b now task st tr).1.error = Option.none)) ∧
    (∀ (now : String) (task : PyDict) (inst : Option Coordinator.SubAgent)
       (context : PyVal) (st : Coordinator.CoordinatorState)
       (r : AgentResponse) (st2 : Coordinator.CoordinatorState),
       registryInv st →
       PyVal.beq (PyDict.getD task "type" (PyVal.str "unknown"))
         (PyVal.str "workflow_execution") = false →
       (PyVal.beq (PyDict.getD task "type" (PyVal.str "unknown"))
          (PyVal.str "performance_monitoring") = true →
        PyVal.beq (PyDict.getD task "monitoring_type" (PyVal.str "health_check"))
          (PyVal.str "health_check") = false) →
       Coordinator.process_task now task inst context st = Except.ok (r, st2) →
       (r.success = true ↔ r.error = Option.none)) := by
  refine ⟨?_, ?_, ?_, ?_, ?_⟩
  · intro cfg ctx b env h
    exact (processAttempts_envelopeOk cfg ctx b (cfg.max_retries + 1).toNat 0 0 [] env h).1
  · intro now task st
    exact planner_process_task_inv now task st
  · intro cfg b now task st tr
    exact advisor_process_task_inv cfg b now task st tr
  · intro cfg b now task st tr
    exact notewriter_process_task_inv cfg b now task st tr
  · intro now task inst context st r st2 hreg hwf hmon heq
    unfold Coordinator.process_task at heq
    dsimp only at heq
    rw [if_neg (by simp [hwf])] at heq
    split_ifs at heq with hco hsm hpm
    · simp only [Except.ok.injEq] at heq
      have h2 := coordinator_coordinate_agents_inv task inst context st hreg
      rw [heq] at h2
      simpa [envelopeInv] using h2
    · exact (coordinator_manage_state_ok now task context st r st2 heq).1
    · simp only [Except.ok.injEq] at heq
      have h2 := (coordinator_monitor_ok task st (hmon hpm)).1
      rw [heq] at h2
      simpa [envelopeInv] using h2
    · simp only [Except.ok.injEq, Prod.mk.injEq] at heq
      obtain ⟨h1, _⟩ := heq
      subst h1
      exact handle_unknown_task_inv task

theorem claim_C2_envelope_invariant_witness :
    (({ content := ""
        metadata := [("task", PyVal.dict [("type", PyVal.str "state_management")])]
        success := false
        error := Option.some "Unknown state action: None" } : AgentResponse).success = true ↔
     ({ content := ""
        metadata := [("task", PyVal.dict [("type", PyVal.str "state_management")])]
        success := false
        error := Option.some "Unknown state action: None" } : AgentResponse).error = Option.none) :=
  claim_C2_envelope_invariant_amended.2.2.2.2 "t0"
    [("type", PyVal.str "state_management")] Option.none PyVal.none ⟨[], [], []⟩
    { content := ""
      metadata := [("task", PyVal.dict [("type", PyVal.str "state_management")])]
      success := false
      error := Option.some "Unknown state action: None" }
    ⟨[], [], []⟩
    (fun p hp => absurd hp (by simp))
    rfl
    (fun hx => absurd hx (by decide))
    rfl

/-- C7 counterexample: the planner's unknown-task handler returns a failure
envelope (`success = false`) whose content is the non-empty string
`"Unknown task type: teleport"` (planner.py lines 728-733), so not every
failure envelope has empty content. -/
theorem claim_C7_counterexample :
    (Planner.process_task "t0" [("type", PyVal.str "teleport")] ⟨[], [], []⟩).1.success
        = false ∧
    (Planner.process_task "t0" [("type", PyVal.str "teleport")] ⟨[], [], []⟩).1.content
        = "Unknown task type: teleport" ∧
    "Unknown task type: teleport" ≠ "" :=
  ⟨rfl, rfl, by decide⟩

/-- C7 (amended): every failure envelope returned by `process_message` and by
the planner, advisor and notewriter `process_task` has empty content unless
it is the unknown-task-handler envelope (whose content echoes the unknown
tag); the coordinator's `process_task` obeys the same rule on every branch
except those that wrap or aggregate sub-agent results (workflow execution,
agent-communication forwarding, load balancing, and the health check), whose
content is a descriptive message. -/
theorem claim_C7_failure_content_amended :
    (∀ (cfg : AgentCfg) (ctx : PyVal) (b : Backend) (env : AgentResponse),
       (process_message cfg ctx b).1 = Option.some env →
       env.success = false → env.content = "") ∧
    (∀ (now : String) (task : PyDict) (st : Planner.PlannerState),
       (Planner.process_task now task st).1.success = false →
       ((Planner.process_task now task st).1.content = "" ∨
        (Planner.process_task now task st).1 = handle_unknown_task task)) ∧
    (∀ (cfg : AgentCfg) (b : Backend) (now : String) (task : PyDict)
       (st : Advisor.AdvisorState) (tr : Trace),
       (Advisor.process_task cfg b now task st tr).1.success = false →
       ((Advisor.process_task cfg b now task st tr).1.content = "" ∨
        (Advisor.process_task cfg b now task st tr).1 = handle_unknown_task task)) ∧
    (∀ (cfg : AgentCfg) (b : Backend) (now : String) (task : PyDict)
       (st : Notewriter.NotewriterState) (tr : Trace),
       (Notewriter.process_task cfg b now task st tr).1.success = false →
       ((Notewriter.process_task cfg b now task st tr).1.content = "" ∨
        (Notewriter.process_task cfg b now task st tr).1 = handle_unknown_task task)) ∧
    (∀ (now : String) (task : PyDict) (inst : Option Coordinator.SubAgent)
       (context : PyVal) (st : Coordinator.CoordinatorState)
       (r : AgentResponse) (st2 : Coordinator.CoordinatorState),
       PyVal.beq (PyDict.getD task "type" (PyVal.str "unknown"))
         (PyVal.str "workflow_execution") = false →
       (PyVal.beq (PyDict.getD task "type" (PyVal.str "unknown"))
          (PyVal.str "agent_coordination") = true →
        PyVal.beq (PyDict.get task "coordination_type")
          (PyVal.str "agent_communication") = false ∧
        PyVal.beq (PyDict.get task "coordination_type")
          (PyVal.str "load_balancing") = false) →
       (PyVal.beq (PyDict.getD task "type" (PyVal.str "unknown"))
          (PyVal.str "performance_monitoring") = true →
        PyVal.beq (PyDict.getD task "monitoring_type" (PyVal.str "health_check"))
          (PyVal.str "health_check") = false) →
       Coordinator.process_task now task inst context st = Except.ok (r, st2) →
       r.success = false →
       (r.content = "" ∨ r = handle_unknown_task task)) := by
  refine ⟨?_, ?_, ?_, ?_, ?_⟩
  · intro cfg ctx b env h
    exact (processAttempts_envelopeOk cfg ctx b (cfg.max_retries + 1).toNat 0 0 [] env h).2
  · intro now task st
    unfold Planner.process_task
    dsimp only
    split_ifs
    · exact fun hf => Or.inl ((planner_create_schedule_ok now task st).2 hf)
    · exact fun hf => Or.inl ((planner_optimize_schedule_ok now task st).2 hf)
    · exact fun hf => Or.inl ((planner_add_study_session_ok now task st).2 hf)
    · exact fun hf => Or.inl ((planner_manage_deadlines_ok now task st).2 hf)
    · exact fun hf => Or.inl ((planner_adapt_schedule_ok now task st).2 hf)
    · exact fun hf => Or.inl ((planner_spaced_repetition_ok now task st).2 hf)
    · exact fun _ => Or.inr rfl
  · intro cfg b now task st tr
    unfold Advisor.process_task
    dsimp only
    split_ifs
    · exact fun hf => Or.inl ((advisor_provide_guidance_ok cfg b now task st tr).2 hf)
    · rcases h : Advisor.develop_strategy task st with ⟨r0, s0⟩
      intro hf
      left
      have h2 := (advisor_develop_strategy_ok task st).2
      rw [h] at h2
      exact h2 (by simpa using hf)
    · rcases h : Advisor.assess_progress task st with ⟨r0, s0⟩
      intro hf
      left
      have h2 := (advisor_assess_progress_ok task st).2
      rw [h] at h2
      exact h2 (by simpa using hf)
    · rcases h : Advisor.offer_motivation task st with ⟨r0, s0⟩
      intro hf
      left
      have h2 := (advisor_offer_motivation_ok task st).2
      rw [h] at h2
      exact h2 (by simpa using hf)
    · rcases h : Advisor.create_intervention_plan task st with ⟨r0, s0⟩
      intro hf
      left
      have h2 := (advisor_intervention_plan_ok task st).2
      rw [h] at h2
      exact h2 (by simpa using hf)
    · rcases h : Advisor.facilitate_goal_setting task st with ⟨r0, s0⟩
      intro hf
      left
      have h2 := (advisor_goal_setting_ok task st).2
      rw [h] at h2
      exact h2 (by simpa using hf)
    · rcases h : Advisor.assess_stress_levels task st with ⟨r0, s0⟩
      intro hf
      left
      have h2 := (advisor_stress_assessment_ok task st).2
      rw [h] at h2
      exact h2 (by simpa using hf)
    · exact fun _ => Or.inr rfl
  · intro cfg b now task st tr
    unfold Notewriter.process_task
    dsimp only
    split_ifs
    · rcases h : Notewriter.analyze_content now task st with ⟨r0, s0⟩
      intro hf
      left
      have h2 := (notewriter_analyze_content_ok now task st).2
      rw [h] at h2
      exact h2 (by simpa using hf)
    · exact fun hf => Or.inl ((notewriter_generate_notes_ok cfg b now task st tr).2 hf)
    · exact fun hf => Or.inl ((notewriter_create_summary_ok cfg b now task st tr).2 hf)
    · exact fun hf => Or.inl ((notewriter_generate_quiz_ok cfg b now task st tr).2 hf)
    · exact fun hf => Or.inl ((notewriter_create_flashcards_ok cfg b now task st tr).2 hf)
    · exact fun hf => Or.inl ((notewriter_adapt_content_ok cfg b now task st tr).2 hf)
    · exact fun hf => Or.inl ((notewriter_create_visual_aids_ok cfg b now task st tr).2 hf)
    · exact fun _ => Or.inr rfl
  · intro now task inst context st r st2 hwf hco hmon heq hf
    unfold Coordinator.process_task at heq
    dsimp only at heq
    rw [if_neg (by simp [hwf])] at heq
    split_ifs at heq with hc hsm hpm
    · obtain ⟨hcomm, hload⟩ := hco hc
      simp only [Except.ok.injEq] at heq
      unfold Coordinator.coordinate_agents at heq
      dsimp only at heq
      split_ifs at heq with hrca hcm hlb
      · left
        have h2 := (coordinator_register_agent_ok task inst st).2
        rw [heq] at h2
        exact h2 (by simpa using hf)
      · exact absurd hcm (by simp [hcomm])
      · exact absurd hlb (by simp [hload])
      · left
        have h3 := congrArg Prod.fst heq
        dsimp only at h3
        rw [← h3]
    · left
      exact (coordinator_manage_state_ok now task context st r st2 heq).2 hf
    · left
      simp only [Except.ok.injEq] at heq
      have h2 := (coordinator_monitor_ok task st (hmon hpm)).2
      rw [heq] at h2
      exact h2 (by simpa using hf)
    · simp only [Except.ok.injEq, Prod.mk.injEq] at heq
      obtain ⟨h1, _⟩ := heq
      subst h1
      exact Or.inr rfl

theorem claim_C7_failure_content_witness :
    (Planner.process_task "t0" [("type", PyVal.str "create_schedule")] ⟨[], [], []⟩).1.success
        = false →
    ((Planner.process_task "t0" [("type", PyVal.str "create_schedule")] ⟨[], [], []⟩).1.content
        = "" ∨
     (Planner.process_task "t0" [("type", PyVal.str "create_schedule")] ⟨[], [], []⟩).1 =
       handle_unknown_task [("type", PyVal.str "create_schedule")]) :=
  claim_C7_failure_content_amended.2.1 "t0" [("type", PyVal.str "create_schedule")]
    ⟨[], [], []⟩
